import Mathlib

/-!
# SIC Stage 3 firmware: dual-rate sampler, decimator and publish cycle

A shallow embedding of `firmware/src/main.cpp`.

* Machine integers: `unsigned long` is 32 bits wide on the target (ESP32), so clock
  values are naturals below `2^32` and the subtraction of two of them is taken modulo
  `2^32`.  `int` cursors are integers.
* Arrays are maps from the (integer) index to the cell content; the cells with index
  `0 .. capacity-1` are the elements of the C array.
* `float` arithmetic of `downsamplePPG` is IEEE-754 binary32 with round-to-nearest,
  ties-to-even, computed exactly on dyadic rationals.
* Everything the firmware obtains from its collaborators during one call (clock
  readings, sensor values, results of `publish`) is an explicit input record; everything
  it does to them (buffer writes, transport calls, pauses) is recorded in an event trace.
  Of the console output (`Serial`) only the lines that report a condition are kept.
* Collaborators are taken at their interface: the JSON document holds every element
  added to it, `reconnect` and `client.loop` touch no variable of the firmware.
-/

namespace Firmware

/-! ## Single-precision arithmetic used by the decimator -/

/-- A finite binary32 value: sign and magnitude `num / den`, `den` a power of two. -/
structure F32 where
  neg : Bool
  num : Nat
  den : Nat
  deriving DecidableEq, Repr

/-- Auxiliary of `ilog2`, with a recursion bound. -/
def ilog2Aux : Nat → Nat → Nat
  | 0, _ => 0
  | fuel + 1, n => if n < 2 then 0 else ilog2Aux fuel (n / 2) + 1

/-- Position of the leading binary digit: `⌊log₂ n⌋` for `0 < n`, and `0` for `n = 0`. -/
def ilog2 (n : Nat) : Nat := ilog2Aux n n

/-- Nearest binary32 magnitude to the positive rational `p / q` (24 significant bits,
ties to even), as a fraction with a power of two as denominator.  The numerator is first
scaled by `2 ^ k`, enough for the quotient to have at least 24 bits; `b` is the number of
quotient bits beyond the leading 24, which are rounded away.  The exponent range is not
limited: all values met by the decimator (quotients and products of 32-bit integers) lie
well inside the normal range. -/
def roundMag (p q : Nat) : Nat × Nat :=
  if p = 0 then (0, 1) else
  let k := 24 + ilog2 q
  let n := p * 2 ^ k
  let b := ilog2 (n / q) - 23
  let dn := q * 2 ^ b
  let m0 := n / dn
  let r := n % dn
  let m := if dn < 2 * r ∨ (2 * r = dn ∧ m0 % 2 = 1) then m0 + 1 else m0
  (m * 2 ^ b, 2 ^ k)

/-- Conversion `(float)z` of an `int`. -/
def F32.ofInt (z : Int) : F32 :=
  let r := roundMag z.natAbs 1
  ⟨decide (z < 0), r.1, r.2⟩

/-- Single-precision division `a / b` (correctly rounded). -/
def F32.div (a b : F32) : F32 :=
  let r := roundMag (a.num * b.den) (a.den * b.num)
  ⟨xor a.neg b.neg, r.1, r.2⟩

/-- Single-precision multiplication `a * b` (correctly rounded). -/
def F32.mul (a b : F32) : F32 :=
  let r := roundMag (a.num * b.num) (a.den * b.den)
  ⟨xor a.neg b.neg, r.1, r.2⟩

/-- Conversion `(int)x`: truncation toward zero (the result is assumed to fit an `int`). -/
def F32.toInt (x : F32) : Int :=
  if x.neg then -((x.num / x.den : Nat) : Int) else ((x.num / x.den : Nat) : Int)

/-! ## Decimator (`downsamplePPG`, lines 50-61) -/

/-- Array store `a[i] = v`. -/
def store {α : Type} (a : Int → α) (i : Int) (v : α) : Int → α :=
  fun j => if j = i then v else a j

/-- The value of `float ratio = (float)inputSize / (float)outputSize`. -/
def ratio (inputSize outputSize : Int) : F32 :=
  F32.div (F32.ofInt inputSize) (F32.ofInt outputSize)

/-- The value of `int srcIndex = (int)(i * ratio)` in iteration `i`. -/
def srcIndex (inputSize outputSize : Int) (i : Int) : Int :=
  F32.toInt (F32.mul (F32.ofInt i) (ratio inputSize outputSize))

/-- One iteration of the body of the `for` loop of `downsamplePPG`. -/
def downsampleBody (input : Int → Nat) (inputSize outputSize : Int)
    (output : Int → Nat) (i : Nat) : Int → Nat :=
  if srcIndex inputSize outputSize i < inputSize then
    store output i (input (srcIndex inputSize outputSize i))
  else output

/-- `downsamplePPG(input, inputSize, output, outputSize)`: the content of `output`
after the call, given its content before the call.  The loop runs for
`i = 0, 1, .., outputSize - 1`. -/
def downsamplePPG (input : Int → Nat) (inputSize : Int) (output : Int → Nat)
    (outputSize : Int) : Int → Nat :=
  (List.range outputSize.toNat).foldl (downsampleBody input inputSize outputSize) output

/-! ## Machine words and constants -/

/-- Number of values of `unsigned long` (32 bits on the target). -/
def WORD : Nat := 2 ^ 32

/-- Subtraction `a - b` of two `unsigned long` values (wraps modulo `2^32`). -/
def usub (a b : Nat) : Nat := (a % WORD + (WORD - b % WORD)) % WORD

/-- `#define DATA_COLLECTION_TIME 10000` (milliseconds). -/
def DATA_COLLECTION_TIME : Nat := 10000

/-- `#define PPG_BUFFER_SIZE 1000`. -/
def PPG_BUFFER_SIZE : Int := 1000

/-- `#define TEMP_BUFFER_SIZE 40`. -/
def TEMP_BUFFER_SIZE : Int := 40

/-- `const int STRESS_PPG_SIZE = 640` of `sendStressData`. -/
def STRESS_PPG_SIZE : Int := 640

/-- `isnan(t)` on the binary32 bit pattern of a `float`: exponent field all ones and a
non-zero fraction field. -/
def isnan (bits : Nat) : Bool :=
  (bits / 2 ^ 23) % 2 ^ 8 == 255 && bits % 2 ^ 23 != 0

/-- Bit pattern of the `float` constant `36.5` (`0x42120000`): the value stored when the
temperature read fails. -/
def TEMP_FALLBACK : Nat := 0x42120000

/-! ## Data model -/

/-- Global variables of the firmware (lines 37-47) and the `static` local
`lastMQTTCheck` of `loop` (line 223).  `tempBuffer` holds binary32 bit patterns. -/
structure State where
  ppgBuffer : Int → Nat
  tempBuffer : Int → Nat
  ppgIndex : Int
  tempIndex : Int
  lastPPGSample : Nat
  lastTempSample : Nat
  dataCollectionStart : Nat
  collectingData : Bool
  simulateSensors : Bool
  lastMQTTCheck : Nat

/-- The two MQTT topics, `mqtt_topic_bp` and `mqtt_topic_stress`. -/
inductive Topic where
  | bp
  | stress
  deriving DecidableEq, Repr

/-- The JSON document handed to `client.publish`: the arrays `"ppg"` and (stress payload
only) `"temperature"`, then `"device_id"` and `"timestamp"`. -/
structure Payload where
  ppg : List Nat
  temperature : Option (List Nat)
  device_id : String
  timestamp : Nat
  deriving DecidableEq, Repr

/-- What one call of `loop` does to the buffers and to its collaborators, in program
order.  Of the console output only the lines that report a condition are kept. -/
inductive Event where
  /-- call of `reconnect()` (line 226) -/
  | reconnect
  /-- call of `client.loop()` (line 228) -/
  | clientLoop
  /-- the store `ppgBuffer[index] = value` (lines 241, 243) -/
  | ppgWrite (index : Int) (value : Nat)
  /-- the store `tempBuffer[index] = value` (lines 256, 260, 262) -/
  | tempWrite (index : Int) (value : Nat)
  /-- the warning of line 279 -/
  | warnPPGLow
  /-- the warning of line 282 -/
  | warnTempLow
  /-- call of `client.publish(topic, payload)` (lines 126, 160) -/
  | publish (topic : Topic) (payload : Payload)
  /-- the success or failure line printed after a publish (lines 127-129, 161-163) -/
  | publishReport (topic : Topic) (ok : Bool)
  /-- call of `delay(ms)` (lines 288, 304) -/
  | delay (ms : Nat)
  deriving DecidableEq, Repr

/-- What `setup` obtains from its collaborators. -/
structure SetupIn where
  /-- result of `particleSensor.begin(..)` (line 176) -/
  sensorFound : Bool
  /-- whether `WiFi.status() == WL_CONNECTED` at line 79, after the wait of `setup_wifi` -/
  wifiConnected : Bool
  /-- `millis()` at line 208 -/
  startMillis : Nat
  /-- `micros()` at line 212 -/
  startMicrosPPG : Nat
  /-- `micros()` at line 213 -/
  startMicrosTemp : Nat

/-- What one call of `loop` obtains from its collaborators.  A field is only consulted
when the corresponding line is executed. -/
structure LoopIn where
  /-- `micros()` at line 219 -/
  nowMicros : Nat
  /-- `millis()` at line 220 -/
  nowMillis : Nat
  /-- `client.connected()` at line 225 -/
  connected : Bool
  /-- value of the simulated PPG expression converted to `uint32_t` (line 241) -/
  simPPG : Nat
  /-- `particleSensor.getIR()` (line 243) -/
  irValue : Nat
  /-- value of the simulated temperature expression converted to `float` (line 256) -/
  simTemp : Nat
  /-- `dht.readTemperature()` (line 258) -/
  tempRead : Nat
  /-- `millis()` at line 119 -/
  bpMillis : Nat
  /-- result of `client.publish` at line 126 -/
  bpPublished : Bool
  /-- content of the uninitialised local array `ppgDownsampled` (line 136) -/
  scratch : Int → Nat
  /-- `millis()` at line 153 -/
  stressMillis : Nat
  /-- result of `client.publish` at line 160 -/
  stressPublished : Bool
  /-- `millis()` at line 306 -/
  restartMillis : Nat
  /-- `micros()` at line 310 -/
  restartMicrosPPG : Nat
  /-- `micros()` at line 311 -/
  restartMicrosTemp : Nat

/-! ## Publishing (`sendBPData`, `sendStressData`) -/

/-- The elements `a[0], .., a[n-1]` in order: what a loop `for (i = 0; i < n; i++)
array.add(a[i])` appends. -/
def readAll {α : Type} (a : Int → α) (n : Int) : List α :=
  (List.range n.toNat).map (fun k : Nat => a (k : Int))

/-- The document built by `sendBPData` (lines 111-119). -/
def bpPayload (s : State) (i : LoopIn) : Payload :=
  { ppg := readAll s.ppgBuffer PPG_BUFFER_SIZE
    temperature := none
    device_id := "ESP32_SIC_01"
    timestamp := i.bpMillis }

/-- `sendBPData()` (lines 109-131). -/
def sendBPData (s : State) (i : LoopIn) : List Event :=
  [Event.publish Topic.bp (bpPayload s i), Event.publishReport Topic.bp i.bpPublished]

/-- The document built by `sendStressData` (lines 135-153). -/
def stressPayload (s : State) (i : LoopIn) : Payload :=
  { ppg := readAll (downsamplePPG s.ppgBuffer PPG_BUFFER_SIZE i.scratch STRESS_PPG_SIZE)
      STRESS_PPG_SIZE
    temperature := some (readAll s.tempBuffer TEMP_BUFFER_SIZE)
    device_id := "ESP32_SIC_01"
    timestamp := i.stressMillis }

/-- `sendStressData()` (lines 133-165). -/
def sendStressData (s : State) (i : LoopIn) : List Event :=
  [Event.publish Topic.stress (stressPayload s i),
   Event.publishReport Topic.stress i.stressPublished]

/-! ## `setup` -/

/-- The variables as initialised at program start (lines 37-47, 223). -/
def initial : State :=
  { ppgBuffer := fun _ => 0
    tempBuffer := fun _ => 0
    ppgIndex := 0
    tempIndex := 0
    lastPPGSample := 0
    lastTempSample := 0
    dataCollectionStart := 0
    collectingData := false
    simulateSensors := false
    lastMQTTCheck := 0 }

/-- `setup()` (lines 167-216): `simulateSensors` is raised when the PPG sensor is not
found (line 178) or the WiFi link is not up (line 85); then the first window starts. -/
def setup (i : SetupIn) : State :=
  { initial with
    simulateSensors := !i.sensorFound || !i.wifiConnected
    dataCollectionStart := i.startMillis
    collectingData := true
    ppgIndex := 0
    tempIndex := 0
    lastPPGSample := i.startMicrosPPG
    lastTempSample := i.startMicrosTemp }

/-! ## `loop` -/

/-- Lines 222-230: transport maintenance. -/
def maintenance (s : State) (i : LoopIn) : State × List Event :=
  if 100 < usub i.nowMillis s.lastMQTTCheck then
    ({ s with lastMQTTCheck := i.nowMillis },
     (if !s.simulateSensors && !i.connected then [Event.reconnect] else [])
       ++ [Event.clientLoop])
  else (s, [])

/-- The value line 241 / 243 stores into `ppgBuffer`. -/
def ppgSample (s : State) (i : LoopIn) : Nat :=
  if s.simulateSensors then i.simPPG else i.irValue

/-- The value lines 256-262 store into `tempBuffer`. -/
def tempSample (s : State) (i : LoopIn) : Nat :=
  if s.simulateSensors then i.simTemp
  else if !isnan i.tempRead then i.tempRead else TEMP_FALLBACK

/-- Lines 233-247: the PPG stream. -/
def samplePPG (s : State) (i : LoopIn) : State × List Event :=
  if 10000 ≤ usub i.nowMicros s.lastPPGSample then
    if s.ppgIndex < PPG_BUFFER_SIZE then
      let v := ppgSample s i
      ({ s with
          lastPPGSample := i.nowMicros
          ppgBuffer := store s.ppgBuffer s.ppgIndex v
          ppgIndex := s.ppgIndex + 1 },
       [Event.ppgWrite s.ppgIndex v])
    else ({ s with lastPPGSample := i.nowMicros }, [])
  else (s, [])

/-- Lines 249-267: the temperature stream. -/
def sampleTemp (s : State) (i : LoopIn) : State × List Event :=
  if 250000 ≤ usub i.nowMicros s.lastTempSample then
    if s.tempIndex < TEMP_BUFFER_SIZE then
      let v := tempSample s i
      ({ s with
          lastTempSample := i.nowMicros
          tempBuffer := store s.tempBuffer s.tempIndex v
          tempIndex := s.tempIndex + 1 },
       [Event.tempWrite s.tempIndex v])
    else ({ s with lastTempSample := i.nowMicros }, [])
  else (s, [])

/-- Lines 232-267: both streams, PPG first; the state and the events at line 268. -/
def sampling (s : State) (i : LoopIn) : State × List Event :=
  ((sampleTemp (samplePPG s i).1 i).1, (samplePPG s i).2 ++ (sampleTemp (samplePPG s i).1 i).2)

/-- The test of line 270. -/
def timedOut (s : State) (i : LoopIn) : Bool :=
  decide (DATA_COLLECTION_TIME ≤ usub i.nowMillis s.dataCollectionStart)

/-- Lines 271-313: warnings, publishing, pause, start of the next window. -/
def closeWindow (s : State) (i : LoopIn) : State × List Event :=
  ({ s with
      dataCollectionStart := i.restartMillis
      collectingData := true
      ppgIndex := 0
      tempIndex := 0
      lastPPGSample := i.restartMicrosPPG
      lastTempSample := i.restartMicrosTemp },
   (if s.ppgIndex < 900 then [Event.warnPPGLow] else [])
     ++ (if s.tempIndex < 35 then [Event.warnTempLow] else [])
     ++ (if !s.simulateSensors then sendBPData s i ++ [Event.delay 500] ++ sendStressData s i
         else [])
     ++ [Event.delay 5000])

/-- One call of `loop()` (lines 218-316): the state after it and what it did. -/
def loop (s : State) (i : LoopIn) : State × List Event :=
  let m := maintenance s i
  if m.1.collectingData then
    let c := sampling m.1 i
    if timedOut c.1 i then
      let w := closeWindow c.1 i
      (w.1, m.2 ++ c.2 ++ w.2)
    else (c.1, m.2 ++ c.2)
  else m

/-- States the firmware can be in between two calls of `loop`: the state left by
`setup`, and the state left by a call of `loop` in such a state, for any inputs. -/
inductive Reachable : State → Prop where
  | setup (i : SetupIn) : Reachable (setup i)
  | loop {s : State} (i : LoopIn) (h : Reachable s) : Reachable (loop s i).1

/-- The stores into `ppgBuffer` in a trace, in order, as (index, value). -/
def ppgWrites : List Event → List (Int × Nat)
  | [] => []
  | Event.ppgWrite k v :: es => (k, v) :: ppgWrites es
  | _ :: es => ppgWrites es

/-- The stores into `tempBuffer` in a trace, in order, as (index, value). -/
def tempWrites : List Event → List (Int × Nat)
  | [] => []
  | Event.tempWrite k v :: es => (k, v) :: tempWrites es
  | _ :: es => tempWrites es

/-- The scheduler step of one stream as the specification words it, relating the
stream's last-sample timestamp, cursor and buffer before (`last`, `cursor`, `buf`) and
after (`last1`, `cursor1`, `buf1`) and the stores performed (`writes`): nothing happens
before the period has elapsed; once it has, the timestamp becomes `now` and, below
capacity, exactly the sample `v` is stored at the old cursor and the cursor advances by
one, while at capacity cursor and buffer stay as they are. -/
def StreamStep (period : Nat) (capacity : Int) (now v : Nat)
    (last : Nat) (cursor : Int) (buf : Int → Nat)
    (last1 : Nat) (cursor1 : Int) (buf1 : Int → Nat) (writes : List (Int × Nat)) : Prop :=
  (usub now last < period →
    last1 = last ∧ cursor1 = cursor ∧ buf1 = buf ∧ writes = []) ∧
  (period ≤ usub now last →
    last1 = now ∧
    (cursor < capacity →
      cursor1 = cursor + 1 ∧ buf1 cursor = v ∧ (∀ j, j ≠ cursor → buf1 j = buf j) ∧
      writes = [(cursor, v)]) ∧
    (capacity ≤ cursor → cursor1 = cursor ∧ buf1 = buf ∧ writes = []))

/-- The `publish` calls in a trace, in order. -/
def publishes : List Event → List (Topic × Payload)
  | [] => []
  | Event.publish t p :: es => (t, p) :: publishes es
  | _ :: es => publishes es

/-! ## Derived notions and the example run used by the witnesses -/

/-- The cursor bounds. -/
def CursorsInRange (s : State) : Prop :=
  0 ≤ s.ppgIndex ∧ s.ppgIndex ≤ PPG_BUFFER_SIZE ∧ 0 ≤ s.tempIndex ∧ s.tempIndex ≤ TEMP_BUFFER_SIZE

/-- A concrete start: sensor found, link up, clock at three seconds. -/
def liveStart : SetupIn :=
  { sensorFound := true, wifiConnected := true, startMillis := 3000,
    startMicrosPPG := 3000123, startMicrosTemp := 3000124 }

/-- A first call of `loop`, 10.2 ms after `liveStart`: the PPG stream is due. -/
def tickPPG : LoopIn :=
  { nowMicros := 3010323, nowMillis := 3010, connected := true,
    simPPG := 50123, irValue := 70211, simTemp := 0x42120000, tempRead := 0x42133333,
    bpMillis := 0, bpPublished := true, scratch := fun _ => 0,
    stressMillis := 0, stressPublished := true,
    restartMillis := 0, restartMicrosPPG := 0, restartMicrosTemp := 0 }

/-- A call of `loop` 10 s after `liveStart`, reached only then (the loop was held up, for
instance inside `reconnect`): both streams are due once and the window times out. -/
def tickLate : LoopIn :=
  { nowMicros := 13000500, nowMillis := 13000, connected := true,
    simPPG := 50123, irValue := 70999, simTemp := 0x42120000, tempRead := 0x42133333,
    bpMillis := 13001, bpPublished := false, scratch := fun _ => 0,
    stressMillis := 13520, stressPublished := false,
    restartMillis := 18530, restartMicrosPPG := 18530417, restartMicrosTemp := 18530418 }

/-- The temperature samples stored so far are numbers. -/
def TempStored (s : State) : Prop :=
  ∀ j : Int, 0 ≤ j → j < s.tempIndex → isnan (s.tempBuffer j) = false

/-- A call of `loop` whose millisecond reading is exactly 100 ms after the maintenance
done in `tickPPG`. -/
def tick100 : LoopIn :=
  { nowMicros := 3110400, nowMillis := 3110, connected := true,
    simPPG := 50456, irValue := 70305, simTemp := 0x42120000, tempRead := 0x42133333,
    bpMillis := 0, bpPublished := true, scratch := fun _ => 0,
    stressMillis := 0, stressPublished := true,
    restartMillis := 0, restartMicrosPPG := 0, restartMicrosTemp := 0 }

/-- An input whose cell `k` holds `k`: the output then shows the index that was read. -/
def rampInput : Int → Nat := fun k => k.toNat

/-- Successive calls of `loop` with the given inputs: the final state and everything done. -/
def run (s : State) : List LoopIn → State × List Event
  | [] => (s, [])
  | i :: is => ((run (loop s i).1 is).1, (loop s i).2 ++ (run (loop s i).1 is).2)

/-- Content of a stream buffer during a window, relative to its content `buf0` at the
window start: the cursor is within `[0, capacity]`, the cells from the cursor on still hold
what they held at the window start, and the stores made so far are exactly the cells below
the cursor, in index order. -/
def Filled (capacity : Int) (buf0 buf : Int → Nat) (cursor : Int) (w : List (Int × Nat)) : Prop :=
  0 ≤ cursor ∧ cursor ≤ capacity ∧ (∀ k : Int, cursor ≤ k → buf k = buf0 k) ∧
  w = (List.range cursor.toNat).map (fun k : Nat => ((k : Int), buf (k : Int)))

/-- The state in which the second window of the example run starts: `setup`, two calls
that each store a PPG sample, and the call that closes the first window. -/
def secondWindow : State :=
  (run (setup liveStart) [tickPPG, tick100, tickLate]).1

/-- The call that closes the second window, again reached late: one PPG sample and one
temperature sample are taken in it, then the window times out. -/
def tickLate2 : LoopIn :=
  { nowMicros := 28531000, nowMillis := 28531, connected := true,
    simPPG := 50123, irValue := 71111, simTemp := 0x42120000, tempRead := 0x42133333,
    bpMillis := 28532, bpPublished := true, scratch := fun _ => 0,
    stressMillis := 29040, stressPublished := true,
    restartMillis := 34050, restartMicrosPPG := 34050417, restartMicrosTemp := 34050418 }

/-! ## Facts about the blocks of `loop` -/

theorem usub_of_le {a b : Nat} (hb : b ≤ a) (ha : a < WORD) : usub a b = a - b := by
  unfold usub WORD at *
  omega

theorem maintenance_fields (s : State) (i : LoopIn) :
    (maintenance s i).1.ppgBuffer = s.ppgBuffer ∧ (maintenance s i).1.tempBuffer = s.tempBuffer ∧
    (maintenance s i).1.ppgIndex = s.ppgIndex ∧ (maintenance s i).1.tempIndex = s.tempIndex ∧
    (maintenance s i).1.lastPPGSample = s.lastPPGSample ∧
    (maintenance s i).1.lastTempSample = s.lastTempSample ∧
    (maintenance s i).1.dataCollectionStart = s.dataCollectionStart ∧
    (maintenance s i).1.collectingData = s.collectingData ∧
    (maintenance s i).1.simulateSensors = s.simulateSensors := by
  unfold maintenance
  split <;> simp

theorem cursorsInRange_setup (i : SetupIn) : CursorsInRange (setup i) := by
  simp [CursorsInRange, setup, PPG_BUFFER_SIZE, TEMP_BUFFER_SIZE]

theorem cursorsInRange_maintenance (s : State) (i : LoopIn) (h : CursorsInRange s) :
    CursorsInRange (maintenance s i).1 := by
  obtain ⟨-, -, m3, m4, -⟩ := maintenance_fields s i
  unfold CursorsInRange at *
  rw [m3, m4]
  exact h

theorem cursorsInRange_samplePPG (s : State) (i : LoopIn) (h : CursorsInRange s) :
    CursorsInRange (samplePPG s i).1 := by
  unfold CursorsInRange samplePPG PPG_BUFFER_SIZE TEMP_BUFFER_SIZE at *
  split_ifs <;> simp <;> omega

theorem cursorsInRange_sampleTemp (s : State) (i : LoopIn) (h : CursorsInRange s) :
    CursorsInRange (sampleTemp s i).1 := by
  unfold CursorsInRange sampleTemp PPG_BUFFER_SIZE TEMP_BUFFER_SIZE at *
  split_ifs <;> simp <;> omega

theorem cursorsInRange_closeWindow (s : State) (i : LoopIn) :
    CursorsInRange (closeWindow s i).1 := by
  simp [CursorsInRange, closeWindow, PPG_BUFFER_SIZE, TEMP_BUFFER_SIZE]

theorem samplePPG_fields (s : State) (i : LoopIn) :
    (samplePPG s i).1.tempBuffer = s.tempBuffer ∧ (samplePPG s i).1.tempIndex = s.tempIndex ∧
    (samplePPG s i).1.lastTempSample = s.lastTempSample ∧
    (samplePPG s i).1.dataCollectionStart = s.dataCollectionStart ∧
    (samplePPG s i).1.collectingData = s.collectingData ∧
    (samplePPG s i).1.simulateSensors = s.simulateSensors ∧
    (samplePPG s i).1.lastMQTTCheck = s.lastMQTTCheck := by
  unfold samplePPG
  split_ifs <;> simp

theorem sampleTemp_fields (s : State) (i : LoopIn) :
    (sampleTemp s i).1.ppgBuffer = s.ppgBuffer ∧ (sampleTemp s i).1.ppgIndex = s.ppgIndex ∧
    (sampleTemp s i).1.lastPPGSample = s.lastPPGSample ∧
    (sampleTemp s i).1.dataCollectionStart = s.dataCollectionStart ∧
    (sampleTemp s i).1.collectingData = s.collectingData ∧
    (sampleTemp s i).1.simulateSensors = s.simulateSensors ∧
    (sampleTemp s i).1.lastMQTTCheck = s.lastMQTTCheck := by
  unfold sampleTemp
  split_ifs <;> simp

theorem timedOut_sampling (s : State) (i : LoopIn) :
    timedOut (sampling (maintenance s i).1 i).1 i = timedOut s i := by
  unfold timedOut sampling
  rw [(sampleTemp_fields _ i).2.2.2.1, (samplePPG_fields _ i).2.2.2.1,
    (maintenance_fields s i).2.2.2.2.2.2.1]

theorem loop_idle (s : State) (i : LoopIn) (h : s.collectingData = false) :
    loop s i = maintenance s i := by
  have hm := (maintenance_fields s i).2.2.2.2.2.2.2.1
  simp only [loop, hm, h]
  simp

theorem loop_open (s : State) (i : LoopIn) (h : s.collectingData = true)
    (ht : timedOut s i = false) :
    loop s i = ((sampling (maintenance s i).1 i).1,
      (maintenance s i).2 ++ (sampling (maintenance s i).1 i).2) := by
  have hm := (maintenance_fields s i).2.2.2.2.2.2.2.1
  simp only [loop, hm, h, timedOut_sampling, ht]
  simp

theorem loop_close (s : State) (i : LoopIn) (h : s.collectingData = true)
    (ht : timedOut s i = true) :
    loop s i = ((closeWindow (sampling (maintenance s i).1 i).1 i).1,
      (maintenance s i).2 ++ (sampling (maintenance s i).1 i).2
        ++ (closeWindow (sampling (maintenance s i).1 i).1 i).2) := by
  have hm := (maintenance_fields s i).2.2.2.2.2.2.2.1
  simp only [loop, hm, h, timedOut_sampling, ht]
  simp

theorem cursorsInRange_loop (s : State) (i : LoopIn) (h : CursorsInRange s) :
    CursorsInRange (loop s i).1 := by
  have hm := cursorsInRange_maintenance s i h
  have hc : CursorsInRange (sampling (maintenance s i).1 i).1 :=
    cursorsInRange_sampleTemp _ i (cursorsInRange_samplePPG _ i hm)
  cases hcd : s.collectingData with
  | false => rw [loop_idle s i hcd]; exact hm
  | true =>
    cases ht : timedOut s i with
    | false => rw [loop_open s i hcd ht]; exact hc
    | true => rw [loop_close s i hcd ht]; exact cursorsInRange_closeWindow _ i

theorem cursorsInRange_of_reachable {s : State} (h : Reachable s) : CursorsInRange s := by
  induction h with
  | setup i => exact cursorsInRange_setup i
  | loop i _ ih => exact cursorsInRange_loop _ i ih

/-! ## Cursor bounds (C1) -/

theorem loop_events_mem (s : State) (i : LoopIn) (e : Event) (h : e ∈ (loop s i).2) :
    e ∈ (maintenance s i).2 ∨ e ∈ (samplePPG (maintenance s i).1 i).2 ∨
    e ∈ (sampleTemp (samplePPG (maintenance s i).1 i).1 i).2 ∨
    e ∈ (closeWindow (sampling (maintenance s i).1 i).1 i).2 := by
  cases hcd : s.collectingData with
  | false => rw [loop_idle s i hcd] at h; exact Or.inl h
  | true =>
    cases ht : timedOut s i with
    | false =>
      rw [loop_open s i hcd ht] at h
      rcases List.mem_append.1 h with h | h
      · exact Or.inl h
      · rcases List.mem_append.1 h with h | h
        · exact Or.inr (Or.inl h)
        · exact Or.inr (Or.inr (Or.inl h))
    | true =>
      rw [loop_close s i hcd ht] at h
      rcases List.mem_append.1 h with h | h
      · rcases List.mem_append.1 h with h | h
        · exact Or.inl h
        · rcases List.mem_append.1 h with h | h
          · exact Or.inr (Or.inl h)
          · exact Or.inr (Or.inr (Or.inl h))
      · exact Or.inr (Or.inr (Or.inr h))

theorem ppgWrite_mem_samplePPG (s : State) (i : LoopIn) (idx : Int) (v : Nat)
    (h : Event.ppgWrite idx v ∈ (samplePPG s i).2) :
    idx = s.ppgIndex ∧ s.ppgIndex < PPG_BUFFER_SIZE := by
  unfold samplePPG at h
  split_ifs at h with h1 h2
  all_goals simp at h
  all_goals exact ⟨h.1, h2⟩

theorem tempWrite_mem_sampleTemp (s : State) (i : LoopIn) (idx : Int) (v : Nat)
    (h : Event.tempWrite idx v ∈ (sampleTemp s i).2) :
    idx = s.tempIndex ∧ s.tempIndex < TEMP_BUFFER_SIZE := by
  unfold sampleTemp at h
  split_ifs at h with h1 h2
  all_goals simp at h
  all_goals exact ⟨h.1, h2⟩

theorem ppgWrite_mem_loop (s : State) (i : LoopIn) (idx : Int) (v : Nat)
    (h : Event.ppgWrite idx v ∈ (loop s i).2) :
    idx = s.ppgIndex ∧ s.ppgIndex < PPG_BUFFER_SIZE := by
  rcases loop_events_mem s i _ h with h | h | h | h
  · unfold maintenance at h
    split_ifs at h <;> simp at h
  · rw [← (maintenance_fields s i).2.2.1]
    exact ppgWrite_mem_samplePPG _ i idx v h
  · unfold sampleTemp at h
    split_ifs at h <;> simp at h
  · unfold closeWindow sendBPData sendStressData at h
    split_ifs at h <;> simp at h

theorem tempWrite_mem_loop (s : State) (i : LoopIn) (idx : Int) (v : Nat)
    (h : Event.tempWrite idx v ∈ (loop s i).2) :
    idx = s.tempIndex ∧ s.tempIndex < TEMP_BUFFER_SIZE := by
  rcases loop_events_mem s i _ h with h | h | h | h
  · unfold maintenance at h
    split_ifs at h <;> simp at h
  · unfold samplePPG at h
    split_ifs at h <;> simp at h
  · rw [← (maintenance_fields s i).2.2.2.1, ← (samplePPG_fields _ i).2.1]
    exact tempWrite_mem_sampleTemp _ i idx v h
  · unfold closeWindow sendBPData sendStressData at h
    split_ifs at h <;> simp at h

/-- C1: in every state reachable from `setup` by calls of `loop` (any clock readings,
any sensor values, either mode), `0 ≤ ppgIndex ≤ 1000` and `0 ≤ tempIndex ≤ 40`; and every
store into `ppgBuffer` / `tempBuffer` performed by a call of `loop` in such a state is at
an index `0 ≤ index < 1000` / `0 ≤ index < 40`. -/
theorem cursor_bound_invariant (s : State) (h : Reachable s) :
    (0 ≤ s.ppgIndex ∧ s.ppgIndex ≤ 1000 ∧ 0 ≤ s.tempIndex ∧ s.tempIndex ≤ 40) ∧
    ∀ (i : LoopIn) (idx : Int) (v : Nat),
      (Event.ppgWrite idx v ∈ (loop s i).2 → 0 ≤ idx ∧ idx < 1000) ∧
      (Event.tempWrite idx v ∈ (loop s i).2 → 0 ≤ idx ∧ idx < 40) := by
  have hc := cursorsInRange_of_reachable h
  unfold CursorsInRange PPG_BUFFER_SIZE TEMP_BUFFER_SIZE at hc
  refine ⟨hc, fun i idx v => ⟨fun hw => ?_, fun hw => ?_⟩⟩
  · have := ppgWrite_mem_loop s i idx v hw
    unfold PPG_BUFFER_SIZE at this
    omega
  · have := tempWrite_mem_loop s i idx v hw
    unfold TEMP_BUFFER_SIZE at this
    omega

/-- Witness of C1: the state after `setup` and one call of `loop` is reachable. -/
theorem cursor_bound_invariant_witness :
    Reachable (loop (setup liveStart) tickPPG).1 ∧
    ((0 ≤ (loop (setup liveStart) tickPPG).1.ppgIndex ∧
      (loop (setup liveStart) tickPPG).1.ppgIndex ≤ 1000 ∧
      0 ≤ (loop (setup liveStart) tickPPG).1.tempIndex ∧
      (loop (setup liveStart) tickPPG).1.tempIndex ≤ 40) ∧
    ∀ (i : LoopIn) (idx : Int) (v : Nat),
      (Event.ppgWrite idx v ∈ (loop (loop (setup liveStart) tickPPG).1 i).2 →
        0 ≤ idx ∧ idx < 1000) ∧
      (Event.tempWrite idx v ∈ (loop (loop (setup liveStart) tickPPG).1 i).2 →
        0 ≤ idx ∧ idx < 40)) :=
  ⟨Reachable.loop tickPPG (Reachable.setup liveStart),
   cursor_bound_invariant _ (Reachable.loop tickPPG (Reachable.setup liveStart))⟩

/-! ## Scheduler step of each stream (C2) -/

theorem ppgWrites_append (a b : List Event) : ppgWrites (a ++ b) = ppgWrites a ++ ppgWrites b := by
  induction a with
  | nil => rfl
  | cons e es ih => cases e <;> simp [ppgWrites, ih]

theorem tempWrites_append (a b : List Event) :
    tempWrites (a ++ b) = tempWrites a ++ tempWrites b := by
  induction a with
  | nil => rfl
  | cons e es ih => cases e <;> simp [tempWrites, ih]

theorem publishes_append (a b : List Event) :
    publishes (a ++ b) = publishes a ++ publishes b := by
  induction a with
  | nil => rfl
  | cons e es ih => cases e <;> simp [publishes, ih]

theorem maintenance_writes (s : State) (i : LoopIn) :
    ppgWrites (maintenance s i).2 = [] ∧ tempWrites (maintenance s i).2 = [] ∧
    publishes (maintenance s i).2 = [] := by
  unfold maintenance
  split_ifs <;> simp [ppgWrites, tempWrites, publishes]

theorem closeWindow_writes (s : State) (i : LoopIn) :
    ppgWrites (closeWindow s i).2 = [] ∧ tempWrites (closeWindow s i).2 = [] := by
  unfold closeWindow sendBPData sendStressData
  simp only [ppgWrites_append, tempWrites_append]
  split_ifs <;> simp [ppgWrites, tempWrites]

theorem samplePPG_writes (s : State) (i : LoopIn) :
    tempWrites (samplePPG s i).2 = [] ∧ publishes (samplePPG s i).2 = [] := by
  unfold samplePPG
  split_ifs <;> simp [tempWrites, publishes]

theorem sampleTemp_writes (s : State) (i : LoopIn) :
    ppgWrites (sampleTemp s i).2 = [] ∧ publishes (sampleTemp s i).2 = [] := by
  unfold sampleTemp
  split_ifs <;> simp [ppgWrites, publishes]

theorem loop_ppgWrites (s : State) (i : LoopIn) (h : s.collectingData = true) :
    ppgWrites (loop s i).2 = ppgWrites (samplePPG (maintenance s i).1 i).2 := by
  cases ht : timedOut s i with
  | false =>
    rw [loop_open s i h ht]
    simp [sampling, ppgWrites_append, maintenance_writes, sampleTemp_writes]
  | true =>
    rw [loop_close s i h ht]
    simp [sampling, ppgWrites_append, maintenance_writes, sampleTemp_writes, closeWindow_writes]

theorem loop_tempWrites (s : State) (i : LoopIn) (h : s.collectingData = true) :
    tempWrites (loop s i).2 = tempWrites (sampleTemp (samplePPG (maintenance s i).1 i).1 i).2 := by
  cases ht : timedOut s i with
  | false =>
    rw [loop_open s i h ht]
    simp [sampling, tempWrites_append, maintenance_writes, samplePPG_writes]
  | true =>
    rw [loop_close s i h ht]
    simp [sampling, tempWrites_append, maintenance_writes, samplePPG_writes, closeWindow_writes]

theorem store_same {α : Type} (a : Int → α) (k : Int) (v : α) : store a k v k = v := by
  simp [store]

theorem store_other {α : Type} (a : Int → α) (k j : Int) (v : α) (h : j ≠ k) :
    store a k v j = a j := by
  simp [store, h]

theorem samplePPG_step (s : State) (i : LoopIn) :
    StreamStep 10000 1000 i.nowMicros (ppgSample s i)
      s.lastPPGSample s.ppgIndex s.ppgBuffer
      (samplePPG s i).1.lastPPGSample (samplePPG s i).1.ppgIndex (samplePPG s i).1.ppgBuffer
      (ppgWrites (samplePPG s i).2) := by
  unfold StreamStep samplePPG PPG_BUFFER_SIZE
  refine ⟨fun h => ?_, fun h => ⟨?_, fun hc => ?_, fun hc => ?_⟩⟩
  · rw [if_neg (by omega)]
    simp [ppgWrites]
  · rw [if_pos h]
    split_ifs <;> rfl
  · rw [if_pos h, if_pos hc]
    exact ⟨rfl, store_same _ _ _, fun j hj => store_other _ _ _ _ hj, rfl⟩
  · rw [if_pos h, if_neg (by omega)]
    simp [ppgWrites]

theorem sampleTemp_step (s : State) (i : LoopIn) :
    StreamStep 250000 40 i.nowMicros (tempSample s i)
      s.lastTempSample s.tempIndex s.tempBuffer
      (sampleTemp s i).1.lastTempSample (sampleTemp s i).1.tempIndex (sampleTemp s i).1.tempBuffer
      (tempWrites (sampleTemp s i).2) := by
  unfold StreamStep sampleTemp TEMP_BUFFER_SIZE
  refine ⟨fun h => ?_, fun h => ⟨?_, fun hc => ?_, fun hc => ?_⟩⟩
  · rw [if_neg (by omega)]
    simp [tempWrites]
  · rw [if_pos h]
    split_ifs <;> rfl
  · rw [if_pos h, if_pos hc]
    exact ⟨rfl, store_same _ _ _, fun j hj => store_other _ _ _ _ hj, rfl⟩
  · rw [if_pos h, if_neg (by omega)]
    simp [tempWrites]

theorem sampling_stream_steps (s : State) (i : LoopIn) (h : s.collectingData = true) :
    StreamStep 10000 1000 i.nowMicros (ppgSample s i)
      s.lastPPGSample s.ppgIndex s.ppgBuffer
      (sampling (maintenance s i).1 i).1.lastPPGSample
      (sampling (maintenance s i).1 i).1.ppgIndex
      (sampling (maintenance s i).1 i).1.ppgBuffer
      (ppgWrites (loop s i).2) ∧
    StreamStep 250000 40 i.nowMicros (tempSample s i)
      s.lastTempSample s.tempIndex s.tempBuffer
      (sampling (maintenance s i).1 i).1.lastTempSample
      (sampling (maintenance s i).1 i).1.tempIndex
      (sampling (maintenance s i).1 i).1.tempBuffer
      (tempWrites (loop s i).2) ∧
    (loop s i).1 = (if timedOut s i then (closeWindow (sampling (maintenance s i).1 i).1 i).1
                    else (sampling (maintenance s i).1 i).1) := by
  obtain ⟨m1, m2, m3, m4, m5, m6, -, -, m9⟩ := maintenance_fields s i
  obtain ⟨p1, p2, p3, -, -, p6, -⟩ := samplePPG_fields (maintenance s i).1 i
  obtain ⟨t1, t2, t3, -⟩ := sampleTemp_fields (samplePPG (maintenance s i).1 i).1 i
  refine ⟨?_, ?_, ?_⟩
  · have := samplePPG_step (maintenance s i).1 i
    rw [loop_ppgWrites s i h]
    simp only [sampling, t1, t2, t3]
    simpa only [m1, m3, m5, ppgSample, m9] using this
  · have := sampleTemp_step (samplePPG (maintenance s i).1 i).1 i
    rw [loop_tempWrites s i h]
    simp only [sampling]
    simpa only [m2, m4, m6, p1, p2, p3, tempSample, p6, m9] using this
  · cases ht : timedOut s i with
    | false => rw [loop_open s i h ht]; simp
    | true => rw [loop_close s i h ht]; simp

/-- C2: in a call of `loop` entered while collecting, with `c` the state at the end of the
sampling block (line 268): each stream satisfies its scheduler step (`StreamStep`, PPG with
period 10000 us and capacity 1000, temperature with 250000 us and 40) between the state at
entry and `c`, the stores being those of the whole call; each stream's step is decided by
that stream's own timestamp and cursor at entry only; and the call ends in `c`, unless the
window times out in the same call, in which case it ends in the reset state built from
`c`. -/
theorem scheduler_step (s : State) (i : LoopIn) (h : s.collectingData = true) :
    StreamStep 10000 1000 i.nowMicros (ppgSample s i)
      s.lastPPGSample s.ppgIndex s.ppgBuffer
      (sampling (maintenance s i).1 i).1.lastPPGSample
      (sampling (maintenance s i).1 i).1.ppgIndex
      (sampling (maintenance s i).1 i).1.ppgBuffer
      (ppgWrites (loop s i).2) ∧
    StreamStep 250000 40 i.nowMicros (tempSample s i)
      s.lastTempSample s.tempIndex s.tempBuffer
      (sampling (maintenance s i).1 i).1.lastTempSample
      (sampling (maintenance s i).1 i).1.tempIndex
      (sampling (maintenance s i).1 i).1.tempBuffer
      (tempWrites (loop s i).2) ∧
    (loop s i).1 = (if timedOut s i then (closeWindow (sampling (maintenance s i).1 i).1 i).1
                    else (sampling (maintenance s i).1 i).1) :=
  sampling_stream_steps s i h

/-- Witness of C2: the first call after `liveStart` is entered while collecting. -/
theorem scheduler_step_witness :
    (setup liveStart).collectingData = true ∧
    (StreamStep 10000 1000 tickPPG.nowMicros (ppgSample (setup liveStart) tickPPG)
      (setup liveStart).lastPPGSample (setup liveStart).ppgIndex (setup liveStart).ppgBuffer
      (sampling (maintenance (setup liveStart) tickPPG).1 tickPPG).1.lastPPGSample
      (sampling (maintenance (setup liveStart) tickPPG).1 tickPPG).1.ppgIndex
      (sampling (maintenance (setup liveStart) tickPPG).1 tickPPG).1.ppgBuffer
      (ppgWrites (loop (setup liveStart) tickPPG).2) ∧
    StreamStep 250000 40 tickPPG.nowMicros (tempSample (setup liveStart) tickPPG)
      (setup liveStart).lastTempSample (setup liveStart).tempIndex (setup liveStart).tempBuffer
      (sampling (maintenance (setup liveStart) tickPPG).1 tickPPG).1.lastTempSample
      (sampling (maintenance (setup liveStart) tickPPG).1 tickPPG).1.tempIndex
      (sampling (maintenance (setup liveStart) tickPPG).1 tickPPG).1.tempBuffer
      (tempWrites (loop (setup liveStart) tickPPG).2) ∧
    (loop (setup liveStart) tickPPG).1 =
      (if timedOut (setup liveStart) tickPPG then
        (closeWindow (sampling (maintenance (setup liveStart) tickPPG).1 tickPPG).1 tickPPG).1
       else (sampling (maintenance (setup liveStart) tickPPG).1 tickPPG).1)) :=
  ⟨rfl, scheduler_step (setup liveStart) tickPPG rfl⟩

/-! ## Window timeout and reset (C5, C6) -/

theorem timedOut_iff (s : State) (i : LoopIn) :
    timedOut s i = true ↔ 10000 ≤ usub i.nowMillis s.dataCollectionStart := by
  simp [timedOut, DATA_COLLECTION_TIME]

theorem delay_mem_closed_parts (s : State) (i : LoopIn) :
    Event.delay 5000 ∉ (maintenance s i).2 ∧ Event.delay 5000 ∉ (sampling s i).2 ∧
    Event.delay 5000 ∈ (closeWindow s i).2 := by
  refine ⟨?_, ?_, ?_⟩
  · unfold maintenance
    split_ifs <;> simp
  · unfold sampling samplePPG sampleTemp
    split_ifs <;> simp
  · simp [closeWindow]

/-- C5: in a call of `loop` entered while collecting, whatever the cursors, the
publish/cooldown branch runs (its `delay(5000)` is executed and the call ends in the reset
state) if and only if `nowMillis - dataCollectionStart >= 10000`; otherwise the call ends
in the state left by the sampling block.  With a clock that has not wrapped since the
window start, the condition is `dataCollectionStart + 10000 <= nowMillis`. -/
theorem timeout_dominance (s : State) (i : LoopIn) (h : s.collectingData = true) :
    (Event.delay 5000 ∈ (loop s i).2 ↔ 10000 ≤ usub i.nowMillis s.dataCollectionStart) ∧
    (10000 ≤ usub i.nowMillis s.dataCollectionStart →
      (loop s i).1 = (closeWindow (sampling (maintenance s i).1 i).1 i).1) ∧
    (usub i.nowMillis s.dataCollectionStart < 10000 →
      (loop s i).1 = (sampling (maintenance s i).1 i).1) ∧
    (s.dataCollectionStart ≤ i.nowMillis → i.nowMillis < 2 ^ 32 →
      (Event.delay 5000 ∈ (loop s i).2 ↔ s.dataCollectionStart + 10000 ≤ i.nowMillis)) := by
  have key : Event.delay 5000 ∈ (loop s i).2 ↔ 10000 ≤ usub i.nowMillis s.dataCollectionStart := by
    obtain ⟨d1, -, -⟩ := delay_mem_closed_parts s i
    obtain ⟨-, d2, -⟩ := delay_mem_closed_parts (maintenance s i).1 i
    obtain ⟨-, -, d3⟩ := delay_mem_closed_parts (sampling (maintenance s i).1 i).1 i
    cases ht : timedOut s i with
    | false =>
      rw [loop_open s i h ht]
      have : ¬ 10000 ≤ usub i.nowMillis s.dataCollectionStart := by
        rw [← timedOut_iff, ht]; simp
      simp [d1, d2, this]
    | true =>
      rw [loop_close s i h ht]
      have : 10000 ≤ usub i.nowMillis s.dataCollectionStart := (timedOut_iff s i).1 ht
      simp [d3, this]
  refine ⟨key, fun ht => ?_, fun ht => ?_, fun h1 h2 => ?_⟩
  · rw [loop_close s i h ((timedOut_iff s i).2 ht)]
  · have : timedOut s i = false := by
      cases hto : timedOut s i with
      | false => rfl
      | true => have := (timedOut_iff s i).1 hto; omega
    rw [loop_open s i h this]
  · rw [key, usub_of_le h1 h2]
    omega

/-- Witness of C5: `tickLate` is entered while collecting. -/
theorem timeout_dominance_witness :
    (setup liveStart).collectingData = true ∧
    ((Event.delay 5000 ∈ (loop (setup liveStart) tickLate).2 ↔
        10000 ≤ usub tickLate.nowMillis (setup liveStart).dataCollectionStart) ∧
    (10000 ≤ usub tickLate.nowMillis (setup liveStart).dataCollectionStart →
      (loop (setup liveStart) tickLate).1 =
        (closeWindow (sampling (maintenance (setup liveStart) tickLate).1 tickLate).1
          tickLate).1) ∧
    (usub tickLate.nowMillis (setup liveStart).dataCollectionStart < 10000 →
      (loop (setup liveStart) tickLate).1 =
        (sampling (maintenance (setup liveStart) tickLate).1 tickLate).1) ∧
    ((setup liveStart).dataCollectionStart ≤ tickLate.nowMillis → tickLate.nowMillis < 2 ^ 32 →
      (Event.delay 5000 ∈ (loop (setup liveStart) tickLate).2 ↔
        (setup liveStart).dataCollectionStart + 10000 ≤ tickLate.nowMillis))) :=
  ⟨rfl, timeout_dominance (setup liveStart) tickLate rfl⟩

/-- C6, as stated, fails: right after `setup` with the clock readings of `liveStart` the
two last-sample timestamps differ from each other (they come from two successive
`micros()` calls) and from the window start expressed in microseconds. -/
theorem reset_timestamps_not_equal :
    ¬ ((setup liveStart).collectingData = true ∧ (setup liveStart).ppgIndex = 0 ∧
       (setup liveStart).tempIndex = 0 ∧
       (setup liveStart).lastPPGSample = (setup liveStart).lastTempSample ∧
       (setup liveStart).lastPPGSample = 1000 * (setup liveStart).dataCollectionStart) := by
  simp [setup, liveStart]

/-- C6, amended: after `setup`, and after every call of `loop` that closes a window, the
firmware is collecting with both cursors at 0, and `dataCollectionStart`, `lastPPGSample`
and `lastTempSample` each hold their own clock reading taken at the reset: the `millis()`
reading, the first `micros()` reading and the second `micros()` reading. -/
theorem window_reset (x : SetupIn) (s : State) (i : LoopIn) (h : s.collectingData = true)
    (ht : 10000 ≤ usub i.nowMillis s.dataCollectionStart) :
    ((setup x).collectingData = true ∧ (setup x).ppgIndex = 0 ∧ (setup x).tempIndex = 0 ∧
      (setup x).dataCollectionStart = x.startMillis ∧
      (setup x).lastPPGSample = x.startMicrosPPG ∧
      (setup x).lastTempSample = x.startMicrosTemp) ∧
    ((loop s i).1.collectingData = true ∧ (loop s i).1.ppgIndex = 0 ∧
      (loop s i).1.tempIndex = 0 ∧
      (loop s i).1.dataCollectionStart = i.restartMillis ∧
      (loop s i).1.lastPPGSample = i.restartMicrosPPG ∧
      (loop s i).1.lastTempSample = i.restartMicrosTemp) := by
  refine ⟨by simp [setup], ?_⟩
  rw [loop_close s i h ((timedOut_iff s i).2 ht)]
  simp [closeWindow]

/-- Witness of C6 (amended): `tickLate` closes the window opened by `liveStart`. -/
theorem window_reset_witness :
    ((setup liveStart).collectingData = true ∧
      10000 ≤ usub tickLate.nowMillis (setup liveStart).dataCollectionStart) ∧
    (loop (setup liveStart) tickLate).1.lastPPGSample = 18530417 ∧
    (loop (setup liveStart) tickLate).1.lastTempSample = 18530418 ∧
    (loop (setup liveStart) tickLate).1.dataCollectionStart = 18530 :=
  ⟨⟨rfl, by decide⟩,
   (window_reset liveStart (setup liveStart) tickLate rfl (by decide)).2.2.2.2.2.1,
   (window_reset liveStart (setup liveStart) tickLate rfl (by decide)).2.2.2.2.2.2,
   (window_reset liveStart (setup liveStart) tickLate rfl (by decide)).2.2.2.2.1⟩

/-! ## Publishing at the end of a window (C7) -/

theorem closeWindow_publishes (s : State) (i : LoopIn) :
    publishes (closeWindow s i).2 =
      if s.simulateSensors then []
      else [(Topic.bp, bpPayload s i), (Topic.stress, stressPayload s i)] := by
  unfold closeWindow sendBPData sendStressData
  have h1 : publishes (if s.ppgIndex < 900 then [Event.warnPPGLow] else []) = [] := by
    split_ifs <;> rfl
  have h2 : publishes (if s.tempIndex < 35 then [Event.warnTempLow] else []) = [] := by
    split_ifs <;> rfl
  simp only [publishes_append, h1, h2]
  cases s.simulateSensors <;> simp [publishes]

theorem loop_close_publishes (s : State) (i : LoopIn) (h : s.collectingData = true)
    (ht : timedOut s i = true) :
    publishes (loop s i).2 = publishes (closeWindow (sampling (maintenance s i).1 i).1 i).2 := by
  rw [loop_close s i h ht]
  simp [sampling, publishes_append, maintenance_writes, samplePPG_writes, sampleTemp_writes]

theorem sampling_simulateSensors (s : State) (i : LoopIn) :
    (sampling (maintenance s i).1 i).1.simulateSensors = s.simulateSensors := by
  unfold sampling
  rw [(sampleTemp_fields _ i).2.2.2.2.2.1, (samplePPG_fields _ i).2.2.2.2.2.1,
    (maintenance_fields s i).2.2.2.2.2.2.2.2]

/-- C7: in a call of `loop` that closes a window, whatever the cursors and whatever the
two `publish` calls return: in live mode `publish` is called exactly twice, first with the
bp topic and the document of `sendBPData`, then with the stress topic and the document of
`sendStressData`; in simulated mode it is not called; and in both modes the call ends
collecting with both cursors at 0.  The results `b1`, `b2` of the publish calls change
neither the calls made nor the state reached. -/
theorem publish_never_blocks (s : State) (i : LoopIn) (b1 b2 : Bool)
    (h : s.collectingData = true)
    (ht : 10000 ≤ usub i.nowMillis s.dataCollectionStart) :
    publishes (loop s i).2 =
      (if s.simulateSensors then []
       else [(Topic.bp, bpPayload (sampling (maintenance s i).1 i).1 i),
             (Topic.stress, stressPayload (sampling (maintenance s i).1 i).1 i)]) ∧
    (loop s i).1.collectingData = true ∧ (loop s i).1.ppgIndex = 0 ∧
    (loop s i).1.tempIndex = 0 ∧
    publishes (loop s { i with bpPublished := b1, stressPublished := b2 }).2 =
      publishes (loop s i).2 ∧
    (loop s { i with bpPublished := b1, stressPublished := b2 }).1 = (loop s i).1 := by
  have hto := (timedOut_iff s i).2 ht
  have hto2 : timedOut s { i with bpPublished := b1, stressPublished := b2 } = true := hto
  refine ⟨?_, ?_, ?_, ?_, ?_, ?_⟩
  · rw [loop_close_publishes s i h hto, closeWindow_publishes, sampling_simulateSensors]
  · rw [loop_close s i h hto]; rfl
  · rw [loop_close s i h hto]; rfl
  · rw [loop_close s i h hto]; rfl
  · rw [loop_close_publishes s i h hto, loop_close_publishes s _ h hto2,
      closeWindow_publishes, closeWindow_publishes]
    rfl
  · rw [loop_close s i h hto, loop_close s _ h hto2]
    rfl

/-- Witness of C7: `tickLate` closes the window opened by `liveStart`; both publish
calls are made although both report failure. -/
theorem publish_never_blocks_witness :
    ((setup liveStart).collectingData = true ∧
      10000 ≤ usub tickLate.nowMillis (setup liveStart).dataCollectionStart) ∧
    (publishes (loop (setup liveStart) tickLate).2).map Prod.fst = [Topic.bp, Topic.stress] ∧
    (loop (setup liveStart) tickLate).1.collectingData = true :=
  ⟨⟨rfl, by decide⟩,
   by rw [(publish_never_blocks (setup liveStart) tickLate true true rfl (by decide)).1]; rfl,
   (publish_never_blocks (setup liveStart) tickLate true true rfl (by decide)).2.1⟩

/-! ## Temperature read failure (C9) -/

theorem tempSample_not_nan (s : State) (i : LoopIn) (h : s.simulateSensors = false) :
    isnan (tempSample s i) = false ∧
    tempSample s i = if isnan i.tempRead then TEMP_FALLBACK else i.tempRead := by
  unfold tempSample
  rw [h]
  cases hn : isnan i.tempRead with
  | false => simp [hn]
  | true => simp; decide

theorem collecting_of_reachable {s : State} (h : Reachable s) : s.collectingData = true := by
  induction h with
  | setup x => rfl
  | @loop s i _ ih =>
    cases ht : timedOut s i with
    | false =>
      rw [loop_open s i ih ht]
      show (sampling (maintenance s i).1 i).1.collectingData = true
      unfold sampling
      rw [(sampleTemp_fields _ i).2.2.2.2.1, (samplePPG_fields _ i).2.2.2.2.1,
        (maintenance_fields s i).2.2.2.2.2.2.2.1]
      exact ih
    | true => rw [loop_close s i ih ht]; rfl

theorem tempStored_sampleTemp (s : State) (i : LoopIn) (hl : s.simulateSensors = false)
    (h : TempStored s) : TempStored (sampleTemp s i).1 := by
  unfold TempStored sampleTemp at *
  split_ifs with h1 h2
  · intro j hj0 hj
    simp only at hj ⊢
    by_cases hjk : j = s.tempIndex
    · rw [hjk, store_same]
      exact (tempSample_not_nan s i hl).1
    · rw [store_other _ _ _ _ hjk]
      exact h j hj0 (by omega)
  · exact h
  · exact h

theorem tempStored_loop (s : State) (i : LoopIn) (hc : s.collectingData = true)
    (hl : s.simulateSensors = false) (h : TempStored s) :
    TempStored (loop s i).1 ∧ (loop s i).1.simulateSensors = false := by
  obtain ⟨-, m2, -, m4, -, -, -, -, m9⟩ := maintenance_fields s i
  obtain ⟨p1, p2, -, -, -, p6, -⟩ := samplePPG_fields (maintenance s i).1 i
  have hp : TempStored (samplePPG (maintenance s i).1 i).1 := by
    unfold TempStored at *
    rw [p1, p2, m2, m4]
    exact h
  have hsim : (samplePPG (maintenance s i).1 i).1.simulateSensors = false := by
    rw [p6, m9, hl]
  have hsamp := tempStored_sampleTemp _ i hsim hp
  have hs2 := sampling_simulateSensors s i
  cases ht : timedOut s i with
  | false =>
    rw [loop_open s i hc ht]
    exact ⟨hsamp, by rw [hs2, hl]⟩
  | true =>
    rw [loop_close s i hc ht]
    refine ⟨?_, ?_⟩
    · intro j hj0 hj
      simp [closeWindow] at hj
      omega
    · show (sampling (maintenance s i).1 i).1.simulateSensors = false
      rw [hs2, hl]

theorem loop_simulateSensors (s : State) (i : LoopIn) :
    (loop s i).1.simulateSensors = s.simulateSensors := by
  have hs2 := sampling_simulateSensors s i
  cases hc : s.collectingData with
  | false => rw [loop_idle s i hc]; exact (maintenance_fields s i).2.2.2.2.2.2.2.2
  | true =>
    cases ht : timedOut s i with
    | false => rw [loop_open s i hc ht]; exact hs2
    | true => rw [loop_close s i hc ht]; exact hs2

theorem tempStored_of_reachable {s : State} (h : Reachable s) :
    s.simulateSensors = false → TempStored s := by
  induction h with
  | setup x =>
    intro _ j hj0 hj
    simp [setup] at hj
    omega
  | @loop s i hr ih =>
    intro hl
    rw [loop_simulateSensors] at hl
    exact (tempStored_loop s i (collecting_of_reachable hr) hl (ih hl)).1

/-- C9: in live mode, in every reachable state, no value stored in
`tempBuffer[0 .. tempIndex)` is a NaN; and whenever a call of `loop` finds the temperature
stream due (`nowMicros - lastTempSample >= 250000`) with `tempIndex < 40`, the sampling
block stores at `tempBuffer[tempIndex]` exactly the fallback 36.5 if the sensor read is a
NaN and exactly the value read otherwise, makes that single store, advances `tempIndex`
by 1 and stays collecting. -/
theorem lowrate_nan_recovery (s : State) (hr : Reachable s) (hl : s.simulateSensors = false) :
    (∀ j : Int, 0 ≤ j → j < s.tempIndex → isnan (s.tempBuffer j) = false) ∧
    ∀ i : LoopIn, 250000 ≤ usub i.nowMicros s.lastTempSample → s.tempIndex < 40 →
      (sampling (maintenance s i).1 i).1.tempBuffer s.tempIndex =
        (if isnan i.tempRead then TEMP_FALLBACK else i.tempRead) ∧
      isnan ((sampling (maintenance s i).1 i).1.tempBuffer s.tempIndex) = false ∧
      tempWrites (loop s i).2 =
        [(s.tempIndex, if isnan i.tempRead then TEMP_FALLBACK else i.tempRead)] ∧
      (sampling (maintenance s i).1 i).1.tempIndex = s.tempIndex + 1 ∧
      (sampling (maintenance s i).1 i).1.collectingData = true := by
  refine ⟨tempStored_of_reachable hr hl, fun i hdue hlt => ?_⟩
  have hc := collecting_of_reachable hr
  obtain ⟨-, hT, -⟩ := sampling_stream_steps s i hc
  obtain ⟨h3, h4, -, h5⟩ := (hT.2 hdue).2.1 hlt
  obtain ⟨n1, n2⟩ := tempSample_not_nan s i hl
  refine ⟨?_, ?_, ?_, h3, ?_⟩
  · rw [h4, n2]
  · rw [h4]; exact n1
  · rw [h5, n2]
  · unfold sampling
    rw [(sampleTemp_fields _ i).2.2.2.2.1, (samplePPG_fields _ i).2.2.2.2.1,
      (maintenance_fields s i).2.2.2.2.2.2.2.1]
    exact hc

/-- Witness of C9: `setup liveStart` is reachable and in live mode. -/
theorem lowrate_nan_recovery_witness :
    (Reachable (setup liveStart) ∧ (setup liveStart).simulateSensors = false) ∧
    ((∀ j : Int, 0 ≤ j → j < (setup liveStart).tempIndex →
        isnan ((setup liveStart).tempBuffer j) = false) ∧
    ∀ i : LoopIn, 250000 ≤ usub i.nowMicros (setup liveStart).lastTempSample →
      (setup liveStart).tempIndex < 40 →
      (sampling (maintenance (setup liveStart) i).1 i).1.tempBuffer (setup liveStart).tempIndex =
        (if isnan i.tempRead then TEMP_FALLBACK else i.tempRead) ∧
      isnan ((sampling (maintenance (setup liveStart) i).1 i).1.tempBuffer
        (setup liveStart).tempIndex) = false ∧
      tempWrites (loop (setup liveStart) i).2 =
        [((setup liveStart).tempIndex, if isnan i.tempRead then TEMP_FALLBACK else i.tempRead)] ∧
      (sampling (maintenance (setup liveStart) i).1 i).1.tempIndex =
        (setup liveStart).tempIndex + 1 ∧
      (sampling (maintenance (setup liveStart) i).1 i).1.collectingData = true) :=
  ⟨⟨Reachable.setup liveStart, rfl⟩,
   lowrate_nan_recovery (setup liveStart) (Reachable.setup liveStart) rfl⟩

/-! ## Transport maintenance (C10) -/

theorem maintenance_iff (s : State) (i : LoopIn) :
    (Event.clientLoop ∈ (loop s i).2 ↔ 100 < usub i.nowMillis s.lastMQTTCheck) ∧
    (100 < usub i.nowMillis s.lastMQTTCheck → (loop s i).1.lastMQTTCheck = i.nowMillis) ∧
    (usub i.nowMillis s.lastMQTTCheck ≤ 100 → (loop s i).1.lastMQTTCheck = s.lastMQTTCheck) := by
  have hm : (Event.clientLoop ∈ (maintenance s i).2 ↔ 100 < usub i.nowMillis s.lastMQTTCheck) ∧
      (maintenance s i).1.lastMQTTCheck =
        if 100 < usub i.nowMillis s.lastMQTTCheck then i.nowMillis else s.lastMQTTCheck := by
    unfold maintenance
    split_ifs with h <;> simp [h]
  have hs : ∀ t : State, Event.clientLoop ∉ (sampling t i).2 ∧
      (sampling t i).1.lastMQTTCheck = t.lastMQTTCheck := by
    intro t
    unfold sampling
    rw [(sampleTemp_fields _ i).2.2.2.2.2.2, (samplePPG_fields _ i).2.2.2.2.2.2]
    refine ⟨?_, rfl⟩
    unfold samplePPG sampleTemp
    split_ifs <;> simp
  have hw : ∀ t : State, Event.clientLoop ∉ (closeWindow t i).2 ∧
      (closeWindow t i).1.lastMQTTCheck = t.lastMQTTCheck := by
    intro t
    refine ⟨?_, rfl⟩
    unfold closeWindow sendBPData sendStressData
    split_ifs <;> simp
  have key : (Event.clientLoop ∈ (loop s i).2 ↔ Event.clientLoop ∈ (maintenance s i).2) ∧
      (loop s i).1.lastMQTTCheck = (maintenance s i).1.lastMQTTCheck := by
    cases hc : s.collectingData with
    | false => rw [loop_idle s i hc]; exact ⟨Iff.rfl, rfl⟩
    | true =>
      cases ht : timedOut s i with
      | false =>
        rw [loop_open s i hc ht]
        simp [(hs (maintenance s i).1).1, (hs (maintenance s i).1).2]
      | true =>
        rw [loop_close s i hc ht]
        simp [(hs (maintenance s i).1).1, (hs (maintenance s i).1).2,
          (hw (sampling (maintenance s i).1 i).1).1, (hw (sampling (maintenance s i).1 i).1).2]
  rw [key.1, key.2, hm.1, hm.2]
  refine ⟨Iff.rfl, fun h => by rw [if_pos h], fun h => by rw [if_neg (by omega)]⟩

/-- C10, the code at the failing input: the call `tickPPG` performs the maintenance at
3010 ms; in the call `tick100`, exactly 100 ms later, `client.loop()` is not invoked and
`lastMQTTCheck` stays at 3010. -/
theorem maintenance_skipped_at_100ms :
    (loop (setup liveStart) tickPPG).1.lastMQTTCheck = 3010 ∧
    usub tick100.nowMillis (loop (setup liveStart) tickPPG).1.lastMQTTCheck = 100 ∧
    Event.clientLoop ∉ (loop (loop (setup liveStart) tickPPG).1 tick100).2 ∧
    (loop (loop (setup liveStart) tickPPG).1 tick100).1.lastMQTTCheck = 3010 := by
  have h1 : (loop (setup liveStart) tickPPG).1.lastMQTTCheck = 3010 :=
    (maintenance_iff (setup liveStart) tickPPG).2.1 (by decide)
  have h2 : usub tick100.nowMillis (loop (setup liveStart) tickPPG).1.lastMQTTCheck = 100 := by
    rw [h1]; decide
  refine ⟨h1, h2, ?_, ?_⟩
  · rw [(maintenance_iff _ tick100).1, h2]
    decide
  · rw [(maintenance_iff _ tick100).2.2 (by rw [h2]), h1]

/-! ## Decimator (C3, C4) -/

theorem downsampleBody_apply (input : Int → Nat) (N M : Int) (out : Int → Nat) (n : Nat)
    (k : Int) :
    downsampleBody input N M out n k =
      if k = (n : Int) ∧ srcIndex N M k < N then input (srcIndex N M k) else out k := by
  unfold downsampleBody
  by_cases hk : k = (n : Int)
  · subst hk
    by_cases hs : srcIndex N M (n : Int) < N
    · rw [if_pos hs, store_same, if_pos ⟨rfl, hs⟩]
    · rw [if_neg hs, if_neg (fun h => hs h.2)]
  · have hr : (if k = (n : Int) ∧ srcIndex N M k < N then input (srcIndex N M k) else out k)
        = out k := if_neg (fun h => hk h.1)
    rw [hr]
    by_cases hs : srcIndex N M (n : Int) < N
    · rw [if_pos hs]
      exact store_other _ _ _ _ hk
    · rw [if_neg hs]

theorem downsample_foldl (input : Int → Nat) (N M : Int) (out : Int → Nat) (n : Nat) (k : Int) :
    (List.range n).foldl (downsampleBody input N M) out k =
      if 0 ≤ k ∧ k < n ∧ srcIndex N M k < N then input (srcIndex N M k) else out k := by
  induction n with
  | zero =>
    have : ¬ (0 ≤ k ∧ k < ((0 : Nat) : Int) ∧ srcIndex N M k < N) := by
      intro h; have := h.2.1; omega
    rw [if_neg this]
    rfl
  | succ n ih =>
    rw [List.range_succ, List.foldl_append]
    simp only [List.foldl_cons, List.foldl_nil]
    rw [downsampleBody_apply, ih]
    by_cases hs : srcIndex N M k < N
    · by_cases hk : k = (n : Int)
      · rw [if_pos ⟨hk, hs⟩, if_pos ⟨by omega, by push_cast; omega, hs⟩]
      · rw [if_neg (fun h => hk h.1)]
        by_cases hc : 0 ≤ k ∧ k < (n : Int)
        · rw [if_pos ⟨hc.1, hc.2, hs⟩, if_pos ⟨hc.1, by push_cast; omega, hs⟩]
        · rw [if_neg (fun h => hc ⟨h.1, h.2.1⟩), if_neg]
          rintro ⟨a, b, -⟩
          push_cast at b
          exact hc ⟨a, by omega⟩
    · rw [if_neg (fun h => hs h.2), if_neg (fun h => hs h.2.2), if_neg (fun h => hs h.2.2)]

theorem downsamplePPG_apply (input : Int → Nat) (N M : Int) (out : Int → Nat) (k : Int) :
    downsamplePPG input N out M k =
      if 0 ≤ k ∧ k < M ∧ srcIndex N M k < N then input (srcIndex N M k) else out k := by
  unfold downsamplePPG
  rw [downsample_foldl]
  by_cases hc : 0 ≤ k ∧ k < M ∧ srcIndex N M k < N
  · rw [if_pos hc, if_pos ⟨hc.1, by omega, hc.2.2⟩]
  · rw [if_neg hc, if_neg]
    rintro ⟨a, b, c⟩
    exact hc ⟨a, by omega, c⟩

theorem ilog2Aux_spec : ∀ (fuel n : Nat), n ≤ fuel → 0 < n →
    2 ^ ilog2Aux fuel n ≤ n ∧ n < 2 ^ (ilog2Aux fuel n + 1) := by
  intro fuel
  induction fuel with
  | zero => intro n h1 h2; omega
  | succ f ih =>
    intro n h1 h2
    unfold ilog2Aux
    by_cases h : n < 2
    · rw [if_pos h]
      have : n = 1 := by omega
      subst this
      decide
    · rw [if_neg h]
      obtain ⟨a, b⟩ := ih (n / 2) (by omega) (by omega)
      constructor
      · rw [Nat.pow_succ]; omega
      · rw [Nat.pow_succ]; omega

theorem pow_ilog2_le {n : Nat} (h : 0 < n) : 2 ^ ilog2 n ≤ n :=
  (ilog2Aux_spec n n (Nat.le_refl n) h).1

theorem lt_pow_ilog2 {n : Nat} (h : 0 < n) : n < 2 ^ (ilog2 n + 1) :=
  (ilog2Aux_spec n n (Nat.le_refl n) h).2

theorem ilog2_lt_of_lt_pow {n e : Nat} (h : 0 < n) (hn : n < 2 ^ e) : ilog2 n < e := by
  by_contra hc
  have h1 : 2 ^ e ≤ 2 ^ ilog2 n := Nat.pow_le_pow_right (by decide) (by omega)
  have h2 := pow_ilog2_le h
  omega

theorem roundMag_den_pos (p q : Nat) : 0 < (roundMag p q).2 := by
  unfold roundMag
  split_ifs
  · decide
  · exact Nat.pos_pow_of_pos _ (by decide)

/-- If `p / q` is a 24-bit significand over a power of two, rounding returns it. -/
theorem roundMag_exact (p q m j : Nat) (hq : 0 < q) (hm : m < 2 ^ 24)
    (h : p * 2 ^ j = m * q) : (roundMag p q).1 * q = p * (roundMag p q).2 := by
  rcases Nat.eq_zero_or_pos p with hp | hp
  · subst hp
    simp [roundMag]
  have hlq := lt_pow_ilog2 hq
  have hj1 : 2 ^ j ≤ p * 2 ^ j := Nat.le_mul_of_pos_left _ hp
  have hmq : m * q < 2 ^ 24 * 2 ^ (ilog2 q + 1) :=
    Nat.mul_lt_mul'' hm hlq
  have hjk : j < 24 + (ilog2 q + 1) := by
    rw [← Nat.pow_add] at hmq
    exact (Nat.pow_lt_pow_iff_right (by decide : 1 < 2)).1 (by omega)
  obtain ⟨d, hd⟩ : ∃ d, 24 + ilog2 q = j + d := ⟨24 + ilog2 q - j, by omega⟩
  have hn : p * 2 ^ (24 + ilog2 q) = q * (m * 2 ^ d) := by
    rw [hd, Nat.pow_add, ← Nat.mul_assoc, h]
    ring
  have hm0 : 0 < m := by
    rcases Nat.eq_zero_or_pos m with h0 | h0
    · subst h0
      have : 0 < p * 2 ^ j := Nat.mul_pos hp (Nat.pos_pow_of_pos _ (by decide))
      omega
    · exact h0
  have hnq : p * 2 ^ (24 + ilog2 q) / q = m * 2 ^ d := by
    rw [hn, Nat.mul_div_cancel_left _ hq]
  have ht : ilog2 (m * 2 ^ d) < 24 + d := by
    apply ilog2_lt_of_lt_pow (Nat.mul_pos hm0 (Nat.pos_pow_of_pos _ (by decide)))
    rw [Nat.pow_add]
    exact Nat.mul_lt_mul_of_pos_right hm (Nat.pos_pow_of_pos _ (by decide))
  obtain ⟨c, hc⟩ : ∃ c, d = (ilog2 (m * 2 ^ d) - 23) + c :=
    ⟨d - (ilog2 (m * 2 ^ d) - 23), by omega⟩
  unfold roundMag
  rw [if_neg (by omega)]
  simp only [hnq]
  generalize ilog2 (m * 2 ^ d) - 23 = b at hc
  have hn2 : p * 2 ^ (24 + ilog2 q) = q * 2 ^ b * (m * 2 ^ c) := by
    rw [hn, hc, Nat.pow_add]
    ring
  have hdn : 0 < q * 2 ^ b := Nat.mul_pos hq (Nat.pos_pow_of_pos _ (by decide))
  rw [hn2, Nat.mul_mod_right, Nat.mul_div_cancel_left _ hdn]
  rw [if_neg (by omega)]
  ring

/-- Rounding increases a value by at most the factor `1 + 2^-24`. -/
theorem roundMag_upper (p q : Nat) (hq : 0 < q) :
    (roundMag p q).1 * q * 2 ^ 24 ≤ p * (roundMag p q).2 * (2 ^ 24 + 1) := by
  rcases Nat.eq_zero_or_pos p with hp | hp
  · subst hp
    simp [roundMag]
  have hlq := lt_pow_ilog2 hq
  have h2k : 2 ^ (24 + ilog2 q) ≤ p * 2 ^ (24 + ilog2 q) := Nat.le_mul_of_pos_left _ hp
  have hq23 : 2 ^ 23 * q ≤ p * 2 ^ (24 + ilog2 q) := by
    have : 2 ^ 23 * q ≤ 2 ^ 23 * 2 ^ (ilog2 q + 1) := Nat.mul_le_mul_left _ (Nat.le_of_lt hlq)
    rw [← Nat.pow_add] at this
    have e : 23 + (ilog2 q + 1) = 24 + ilog2 q := by omega
    rw [e] at this
    omega
  have hQ : 2 ^ 23 ≤ p * 2 ^ (24 + ilog2 q) / q := (Nat.le_div_iff_mul_le hq).2 hq23
  have hQpos : 0 < p * 2 ^ (24 + ilog2 q) / q :=
    Nat.lt_of_lt_of_le (Nat.pos_pow_of_pos _ (by decide)) hQ
  have ht1 := pow_ilog2_le hQpos
  have ht2 := lt_pow_ilog2 hQpos
  have ht : 23 ≤ ilog2 (p * 2 ^ (24 + ilog2 q) / q) := by
    have : 2 ^ 23 < 2 ^ (ilog2 (p * 2 ^ (24 + ilog2 q) / q) + 1) := Nat.lt_of_le_of_lt hQ ht2
    have := (Nat.pow_lt_pow_iff_right (by decide : 1 < 2)).1 this
    omega
  have hdn23 : q * 2 ^ (ilog2 (p * 2 ^ (24 + ilog2 q) / q) - 23) * 2 ^ 23
      ≤ p * 2 ^ (24 + ilog2 q) := by
    have h1 := (Nat.le_div_iff_mul_le hq).1 ht1
    have e : 2 ^ ilog2 (p * 2 ^ (24 + ilog2 q) / q)
        = 2 ^ (ilog2 (p * 2 ^ (24 + ilog2 q) / q) - 23) * 2 ^ 23 := by
      rw [← Nat.pow_add]
      congr 1
      omega
    rw [e] at h1
    calc q * 2 ^ (ilog2 (p * 2 ^ (24 + ilog2 q) / q) - 23) * 2 ^ 23
        = 2 ^ (ilog2 (p * 2 ^ (24 + ilog2 q) / q) - 23) * 2 ^ 23 * q := by ring
      _ ≤ p * 2 ^ (24 + ilog2 q) := h1
  unfold roundMag
  rw [if_neg (by omega)]
  simp only []
  generalize ilog2 (p * 2 ^ (24 + ilog2 q) / q) - 23 = b at hdn23
  generalize p * 2 ^ (24 + ilog2 q) = n at hdn23
  generalize hdn : q * 2 ^ b = dn at hdn23
  have hdm := Nat.div_add_mod n dn
  generalize hB : dn * (n / dn) = B at hdm
  have goal_eq : ∀ m : Nat, m * 2 ^ b * q * 2 ^ 24 = (dn * m) * 2 ^ 24 := by
    intro m
    rw [← hdn]
    ring
  rw [goal_eq]
  split_ifs with hc
  · have hr : dn ≤ 2 * (n % dn) := by omega
    rw [Nat.mul_add, hB]
    omega
  · rw [hB]
    omega

theorem div_eq_of_mul_eq {a b c d : Nat} (hc : 0 < c) (hd : 0 < d) (h : a * c = b * d) :
    a / d = b / c := by
  rw [← Nat.mul_div_mul_right a d hc, h, Nat.mul_comm d c, Nat.mul_div_mul_right b c hd]

/-- Conversion of a non-negative `int` below `2^24` is exact. -/
theorem ofInt_exact (z : Nat) (hz : z < 2 ^ 24) :
    (F32.ofInt (z : Int)).neg = false ∧ (F32.ofInt (z : Int)).num = z * (F32.ofInt (z : Int)).den ∧
    0 < (F32.ofInt (z : Int)).den := by
  have h := roundMag_exact z 1 z 0 (by decide) hz (by simp)
  refine ⟨?_, ?_, ?_⟩
  · simp [F32.ofInt]
  · simpa [F32.ofInt] using h
  · exact roundMag_den_pos _ _

/-- For the sizes of the only call, the source index is the floor of `i * 1000 / 640`. -/
theorem srcIndex_1000_640 (i : Nat) (hi : i < 640) :
    srcIndex 1000 640 (i : Int) = ((i * 1000 / 640 : Nat) : Int) := by
  obtain ⟨n1, n2, n3⟩ := ofInt_exact 1000 (by decide)
  obtain ⟨m1, m2, m3⟩ := ofInt_exact 640 (by decide)
  obtain ⟨i1, i2, i3⟩ := ofInt_exact i (by omega)
  have hr := roundMag_exact
    ((F32.ofInt (1000 : Nat)).num * (F32.ofInt (640 : Nat)).den)
    ((F32.ofInt (1000 : Nat)).den * (F32.ofInt (640 : Nat)).num) 25 4
    (by rw [m2]; positivity) (by decide) (by rw [n2, m2]; ring)
  have hrd := roundMag_den_pos
    ((F32.ofInt (1000 : Nat)).num * (F32.ofInt (640 : Nat)).den)
    ((F32.ofInt (1000 : Nat)).den * (F32.ofInt (640 : Nat)).num)
  have e : ratio 1000 640 = ⟨false,
      (roundMag ((F32.ofInt (1000 : Nat)).num * (F32.ofInt (640 : Nat)).den)
        ((F32.ofInt (1000 : Nat)).den * (F32.ofInt (640 : Nat)).num)).1,
      (roundMag ((F32.ofInt (1000 : Nat)).num * (F32.ofInt (640 : Nat)).den)
        ((F32.ofInt (1000 : Nat)).den * (F32.ofInt (640 : Nat)).num)).2⟩ := by
    have a1 : F32.ofInt (1000 : Int) = F32.ofInt ((1000 : Nat) : Int) := rfl
    have a2 : F32.ofInt (640 : Int) = F32.ofInt ((640 : Nat) : Int) := rfl
    unfold ratio F32.div
    rw [a1, a2, n1, m1]
    rfl
  generalize (roundMag ((F32.ofInt (1000 : Nat)).num * (F32.ofInt (640 : Nat)).den)
        ((F32.ofInt (1000 : Nat)).den * (F32.ofInt (640 : Nat)).num)).1 = rn at hr e
  generalize (roundMag ((F32.ofInt (1000 : Nat)).num * (F32.ofInt (640 : Nat)).den)
        ((F32.ofInt (1000 : Nat)).den * (F32.ofInt (640 : Nat)).num)).2 = rd at hr hrd e
  rw [n2, m2] at hr
  generalize (F32.ofInt (1000 : Nat)).den = dN at hr n3
  generalize (F32.ofInt (640 : Nat)).den = dM at hr m3
  have hratio : 16 * rn = 25 * rd := by
    have h1 : (dN * dM) * (rn * 640) = (dN * dM) * (1000 * rd) := by
      calc (dN * dM) * (rn * 640) = rn * (dN * (640 * dM)) := by ring
        _ = 1000 * dN * dM * rd := hr
        _ = (dN * dM) * (1000 * rd) := by ring
    have := Nat.eq_of_mul_eq_mul_left (Nat.mul_pos n3 m3) h1
    omega
  unfold srcIndex F32.toInt F32.mul
  rw [e, i1]
  simp only [Bool.xor_false, Bool.false_eq_true, if_false]
  rw [i2]
  have hx := roundMag_exact (i * (F32.ofInt (i : Int)).den * rn) ((F32.ofInt (i : Int)).den * rd)
    (25 * i) 4 (Nat.mul_pos i3 hrd) (by omega)
    (by
      calc i * (F32.ofInt (i : Int)).den * rn * 2 ^ 4
          = i * (F32.ofInt (i : Int)).den * (16 * rn) := by ring
        _ = i * (F32.ofInt (i : Int)).den * (25 * rd) := by rw [hratio]
        _ = 25 * i * ((F32.ofInt (i : Int)).den * rd) := by ring)
  have hxd := roundMag_den_pos (i * (F32.ofInt (i : Int)).den * rn) ((F32.ofInt (i : Int)).den * rd)
  generalize (roundMag (i * (F32.ofInt (i : Int)).den * rn) ((F32.ofInt (i : Int)).den * rd)).1
    = xn at hx
  generalize (roundMag (i * (F32.ofInt (i : Int)).den * rn) ((F32.ofInt (i : Int)).den * rd)).2
    = xd at hx hxd
  generalize (F32.ofInt (i : Int)).den = di at hx i3
  have h16 : xn * 16 = (25 * i) * xd := by
    have h1 : (di * rd) * (xn * 16) = (di * rd) * ((25 * i) * xd) := by
      calc (di * rd) * (xn * 16) = 16 * (xn * (di * rd)) := by ring
        _ = 16 * (i * di * rn * xd) := by rw [hx]
        _ = i * di * xd * (16 * rn) := by ring
        _ = i * di * xd * (25 * rd) := by rw [hratio]
        _ = (di * rd) * ((25 * i) * xd) := by ring
    exact Nat.eq_of_mul_eq_mul_left (Nat.mul_pos i3 hrd) h1
  have := div_eq_of_mul_eq (by decide : 0 < 16) hxd h16
  rw [this]
  congr 1
  omega

/-- The rounded ratio of two sizes below `2^24` is non-negative and at most
`(N / M) * (1 + 2^-24)`. -/
theorem ratio_upper (N M : Nat) (hN : N < 2 ^ 24) (hM : M < 2 ^ 24) (hM0 : 0 < M) :
    (ratio N M).neg = false ∧ 0 < (ratio N M).den ∧
    (ratio N M).num * M * 2 ^ 24 ≤ N * (ratio N M).den * (2 ^ 24 + 1) := by
  obtain ⟨n1, n2, n3⟩ := ofInt_exact N hN
  obtain ⟨m1, m2, m3⟩ := ofInt_exact M hM
  have hq : 0 < (F32.ofInt (N : Int)).den * (F32.ofInt (M : Int)).num := by
    rw [m2]; positivity
  have hr := roundMag_upper ((F32.ofInt (N : Int)).num * (F32.ofInt (M : Int)).den)
    ((F32.ofInt (N : Int)).den * (F32.ofInt (M : Int)).num) hq
  have hrd := roundMag_den_pos ((F32.ofInt (N : Int)).num * (F32.ofInt (M : Int)).den)
    ((F32.ofInt (N : Int)).den * (F32.ofInt (M : Int)).num)
  unfold ratio F32.div
  simp only [n1, m1, Bool.xor_false]
  refine ⟨trivial, hrd, ?_⟩
  generalize (roundMag ((F32.ofInt (N : Int)).num * (F32.ofInt (M : Int)).den)
    ((F32.ofInt (N : Int)).den * (F32.ofInt (M : Int)).num)).1 = rn at hr
  generalize (roundMag ((F32.ofInt (N : Int)).num * (F32.ofInt (M : Int)).den)
    ((F32.ofInt (N : Int)).den * (F32.ofInt (M : Int)).num)).2 = rd at hr
  rw [n2, m2] at hr
  generalize (F32.ofInt (N : Int)).den = dN at hr n3
  generalize (F32.ofInt (M : Int)).den = dM at hr m3
  have h1 : (dN * dM) * (rn * M * 2 ^ 24) ≤ (dN * dM) * (N * rd * (2 ^ 24 + 1)) := by
    calc (dN * dM) * (rn * M * 2 ^ 24) = rn * (dN * (M * dM)) * 2 ^ 24 := by ring
      _ ≤ N * dN * dM * rd * (2 ^ 24 + 1) := hr
      _ = (dN * dM) * (N * rd * (2 ^ 24 + 1)) := by ring
  exact Nat.le_of_mul_le_mul_left h1 (Nat.mul_pos n3 m3)

/-- For sizes `0 < M < N ≤ 2^23` every iteration `i < M` computes a source index inside
the input. -/
theorem srcIndex_lt (N M i : Nat) (hM : 0 < M) (hMN : M < N) (hN : N ≤ 2 ^ 23) (hi : i < M) :
    0 ≤ srcIndex N M (i : Int) ∧ srcIndex N M (i : Int) < (N : Int) := by
  have hN24 : N < 2 ^ 24 := Nat.lt_of_le_of_lt hN (by decide)
  obtain ⟨r1, r2, r3⟩ := ratio_upper N M hN24 (by omega) hM
  obtain ⟨i1, i2, i3⟩ := ofInt_exact i (by omega)
  have hx := roundMag_upper ((F32.ofInt (i : Int)).num * (ratio N M).num)
    ((F32.ofInt (i : Int)).den * (ratio N M).den) (Nat.mul_pos i3 r2)
  have hxd := roundMag_den_pos ((F32.ofInt (i : Int)).num * (ratio N M).num)
    ((F32.ofInt (i : Int)).den * (ratio N M).den)
  unfold srcIndex F32.toInt F32.mul
  simp only [i1, r1, Bool.xor_false, Bool.false_eq_true, if_false]
  generalize (roundMag ((F32.ofInt (i : Int)).num * (ratio N M).num)
    ((F32.ofInt (i : Int)).den * (ratio N M).den)).1 = xn at hx
  generalize (roundMag ((F32.ofInt (i : Int)).num * (ratio N M).num)
    ((F32.ofInt (i : Int)).den * (ratio N M).den)).2 = xd at hx hxd
  rw [i2] at hx
  generalize (F32.ofInt (i : Int)).den = di at hx i3
  generalize (ratio N M).num = rn at hx r3
  generalize (ratio N M).den = rd at hx r2 r3
  refine ⟨Int.natCast_nonneg _, ?_⟩
  have hx1 : xn * rd * 2 ^ 24 ≤ i * rn * xd * (2 ^ 24 + 1) := by
    have h1 : di * (xn * rd * 2 ^ 24) ≤ di * (i * rn * xd * (2 ^ 24 + 1)) := by
      calc di * (xn * rd * 2 ^ 24) = xn * (di * rd) * 2 ^ 24 := by ring
        _ ≤ i * di * rn * xd * (2 ^ 24 + 1) := hx
        _ = di * (i * rn * xd * (2 ^ 24 + 1)) := by ring
    exact Nat.le_of_mul_le_mul_left h1 i3
  have hlt : xn < N * xd := by
    by_contra hc
    have hc : N * xd ≤ xn := Nat.le_of_not_lt hc
    have hT : 0 < N * xd * rd := Nat.mul_pos (Nat.mul_pos (by omega) hxd) r2
    have h2 : (N * xd * rd) * (M * 2 ^ 48) ≤ (N * xd * rd) * (i * ((2 ^ 24 + 1) * (2 ^ 24 + 1))) := by
      calc (N * xd * rd) * (M * 2 ^ 48) = (N * xd) * (rd * 2 ^ 24 * (M * 2 ^ 24)) := by ring
        _ ≤ xn * (rd * 2 ^ 24 * (M * 2 ^ 24)) := Nat.mul_le_mul_right _ hc
        _ = (xn * rd * 2 ^ 24) * (M * 2 ^ 24) := by ring
        _ ≤ (i * rn * xd * (2 ^ 24 + 1)) * (M * 2 ^ 24) := Nat.mul_le_mul_right _ hx1
        _ = (i * xd * (2 ^ 24 + 1)) * (rn * M * 2 ^ 24) := by ring
        _ ≤ (i * xd * (2 ^ 24 + 1)) * (N * rd * (2 ^ 24 + 1)) := Nat.mul_le_mul_left _ r3
        _ = (N * xd * rd) * (i * ((2 ^ 24 + 1) * (2 ^ 24 + 1))) := by ring
    have h3 := Nat.le_of_mul_le_mul_left h2 hT
    norm_num at h3 hN
    omega
  have : xn / xd < N := (Nat.div_lt_iff_lt_mul hxd).2 hlt
  exact_mod_cast this

theorem downsample_1000_640 (input out : Int → Nat) (j : Nat) (hj : j < 640) :
    downsamplePPG input 1000 out 640 j = input ((j * 1000 / 640 : Nat) : Int) := by
  have e := srcIndex_1000_640 j hj
  rw [downsamplePPG_apply, if_pos ⟨by omega, by omega, by rw [e]; omega⟩, e]

theorem stressPayload_ppg (s : State) (i : LoopIn) :
    (stressPayload s i).ppg =
      (List.range 640).map (fun k : Nat => s.ppgBuffer ((k * 1000 / 640 : Nat) : Int)) := by
  unfold stressPayload readAll STRESS_PPG_SIZE PPG_BUFFER_SIZE
  apply List.map_congr_left
  intro k hk
  exact downsample_1000_640 _ _ k (List.mem_range.1 hk)

/-- C3, as stated, fails: with `N = 26` and `M = 22` the slot `i = 11` receives `input[12]`,
not `input[floor(11 * 26 / 22)] = input[13]`, because the single-precision product
`11 * (26.0f / 22.0f)` is just below 13.  With `N = 2^24 + 2` and `M = 2^24 + 1` the slot
`i = 2^24` is not assigned at all, the computed source index being `N`. -/
theorem decimator_floor_index_fails :
    downsamplePPG rampInput 26 (fun _ => 0) 22 11 = 12 ∧
    rampInput (11 * 26 / 22) = 13 ∧
    downsamplePPG rampInput 26 (fun _ => 0) 22 11 ≠ rampInput (11 * 26 / 22) ∧
    srcIndex 16777218 16777217 16777216 = 16777218 ∧
    downsamplePPG rampInput 16777218 (fun _ => 7) 16777217 16777216 = 7 := by
  have h1 : srcIndex 26 22 11 = 12 := by decide!
  have h2 : srcIndex 16777218 16777217 16777216 = 16777218 := by decide!
  have e1 : downsamplePPG rampInput 26 (fun _ => 0) 22 11 = 12 := by
    rw [downsamplePPG_apply, h1]
    decide
  have e2 : rampInput (11 * 26 / 22) = 13 := by decide
  refine ⟨e1, e2, ?_, h2, ?_⟩
  · rw [e1, e2]
    decide
  · rw [downsamplePPG_apply, h2]
    decide

/-- C3, amended: for sizes `0 < M < N <= 2^23`, `downsamplePPG(input, N, output, M)` assigns
every output slot `i` in `[0, M)` (whatever `output` held before), from the source index
`srcIndex = (int)(i * ((float)N / (float)M))` computed in single precision, and
`0 <= srcIndex <= N - 1`; slots outside `[0, M)` are left as they were.  For the program's
only call, `N = 1000` and `M = 640`, the source index is `floor(i * 1000 / 640)`. -/
theorem decimator_formula (input out : Int → Nat) (N M i : Nat)
    (hM : 0 < M) (hMN : M < N) (hN : N ≤ 2 ^ 23) (hi : i < M) :
    downsamplePPG input N out M i = input (srcIndex N M i) ∧
    0 ≤ srcIndex N M i ∧ srcIndex N M i ≤ (N : Int) - 1 ∧
    (∀ k : Int, k < 0 ∨ (M : Int) ≤ k → downsamplePPG input N out M k = out k) ∧
    (∀ j : Nat, j < 640 →
      srcIndex 1000 640 j = ((j * 1000 / 640 : Nat) : Int) ∧
      downsamplePPG input 1000 out 640 j = input ((j * 1000 / 640 : Nat) : Int)) := by
  obtain ⟨h0, h1⟩ := srcIndex_lt N M i hM hMN hN hi
  refine ⟨?_, h0, by omega, fun k hk => ?_, fun j hj => ?_⟩
  · rw [downsamplePPG_apply, if_pos ⟨by omega, by omega, h1⟩]
  · rw [downsamplePPG_apply, if_neg (by omega)]
  · exact ⟨srcIndex_1000_640 j hj, downsample_1000_640 input out j hj⟩

/-- Witness of C3 (amended): the sizes of the program's call and the slot 639. -/
theorem decimator_formula_witness :
    ((0 : Nat) < 640 ∧ 640 < 1000 ∧ 1000 ≤ 2 ^ 23 ∧ 639 < 640) ∧
    downsamplePPG rampInput (1000 : Nat) (fun _ => 0) (640 : Nat) (639 : Nat)
      = rampInput (srcIndex (1000 : Nat) (640 : Nat) (639 : Nat)) ∧
    srcIndex (1000 : Nat) (640 : Nat) (639 : Nat) ≤ ((1000 : Nat) : Int) - 1 :=
  ⟨by decide,
   (decimator_formula rampInput (fun _ => 0) 1000 640 639 (by decide) (by decide) (by decide)
     (by decide)).1,
   (decimator_formula rampInput (fun _ => 0) 1000 640 639 (by decide) (by decide) (by decide)
     (by decide)).2.2.1⟩

/-- C4: for every input, `downsamplePPG` with `inputSize = 1000` and `outputSize = 640`
yields `output[0] = input[0]`; every slot `i < 640` is filled from the source index
`srcIndex(i)`, and that index is non-decreasing: `srcIndex(i) <= srcIndex(j)` for
`i < j < 640`. -/
theorem decimation_1000_640_monotone (input out : Int → Nat) (i j : Nat)
    (hij : i < j) (hj : j < 640) :
    downsamplePPG input 1000 out 640 0 = input 0 ∧
    downsamplePPG input 1000 out 640 i = input (srcIndex 1000 640 i) ∧
    downsamplePPG input 1000 out 640 j = input (srcIndex 1000 640 j) ∧
    srcIndex 1000 640 i ≤ srcIndex 1000 640 j := by
  have ei := srcIndex_1000_640 i (by omega)
  have ej := srcIndex_1000_640 j hj
  have e0 := srcIndex_1000_640 0 (by decide)
  have hmono : i * 1000 / 640 ≤ j * 1000 / 640 :=
    Nat.div_le_div_right (Nat.mul_le_mul_right _ (Nat.le_of_lt hij))
  refine ⟨?_, ?_, ?_, ?_⟩
  · have := downsamplePPG_apply input 1000 640 out ((0 : Nat) : Int)
    rw [e0] at this
    simpa using this
  · rw [downsamplePPG_apply, if_pos ⟨by omega, by omega, by rw [ei]; omega⟩]
  · rw [downsamplePPG_apply, if_pos ⟨by omega, by omega, by rw [ej]; omega⟩]
  · rw [ei, ej]
    exact_mod_cast hmono

/-- Witness of C4: the slots 1 and 2 read the source indices 1 and 3. -/
theorem decimation_1000_640_monotone_witness :
    ((1 : Nat) < 2 ∧ (2 : Nat) < 640) ∧
    srcIndex 1000 640 ((1 : Nat) : Int) ≤ srcIndex 1000 640 ((2 : Nat) : Int) :=
  ⟨by decide,
   (decimation_1000_640_monotone rampInput (fun _ => 0) 1 2 (by decide) (by decide)).2.2.2⟩

/-! ## Content of the published payloads (C8) -/

theorem filled_start (capacity : Int) (h : 0 ≤ capacity) (buf0 : Int → Nat) :
    Filled capacity buf0 buf0 0 [] :=
  ⟨Int.le_refl 0, h, fun _ _ => rfl, rfl⟩

theorem filled_step {period : Nat} {capacity : Int} {now v last last1 : Nat}
    {cursor cursor1 : Int} {buf0 buf buf1 : Int → Nat} {w writes : List (Int × Nat)}
    (hs : StreamStep period capacity now v last cursor buf last1 cursor1 buf1 writes)
    (hf : Filled capacity buf0 buf cursor w) :
    Filled capacity buf0 buf1 cursor1 (w ++ writes) := by
  obtain ⟨h0, hcap, hrest, hw⟩ := hf
  have same : cursor1 = cursor ∧ buf1 = buf ∧ writes = [] →
      Filled capacity buf0 buf1 cursor1 (w ++ writes) := by
    rintro ⟨e1, e2, e3⟩
    subst e1 e2 e3
    rw [List.append_nil]
    exact ⟨h0, hcap, hrest, hw⟩
  by_cases hdue : period ≤ usub now last
  · obtain ⟨-, hlt, hge⟩ := hs.2 hdue
    by_cases hc : cursor < capacity
    · obtain ⟨e1, e2, e3, e4⟩ := hlt hc
      refine ⟨by omega, by omega, fun k hk => ?_, ?_⟩
      · rw [e3 k (by omega)]
        exact hrest k (by omega)
      · have hn : cursor1.toNat = cursor.toNat + 1 := by omega
        have hcur : ((cursor.toNat : Nat) : Int) = cursor := by omega
        rw [hn, List.range_succ, List.map_append, e4, hw]
        congr 1
        · apply List.map_congr_left
          intro k hk
          have : k < cursor.toNat := List.mem_range.1 hk
          rw [e3 (k : Int) (by omega)]
        · simp only [List.map_cons, List.map_nil, hcur, e2]
    · obtain ⟨e1, e2, e3⟩ := hge (by omega)
      exact same ⟨e1, e2, e3⟩
  · obtain ⟨-, e1, e2, e3⟩ := hs.1 (by omega)
    exact same ⟨e1, e2, e3⟩

theorem filled_readAll {capacity : Int} {buf0 buf : Int → Nat} {cursor : Int}
    {w : List (Int × Nat)} (hf : Filled capacity buf0 buf cursor w) :
    w.length = cursor.toNat ∧
    readAll buf capacity = w.map Prod.snd ++ (readAll buf0 capacity).drop cursor.toNat := by
  obtain ⟨h0, hcap, hrest, hw⟩ := hf
  refine ⟨by rw [hw]; simp, ?_⟩
  apply List.ext_getElem
  · rw [hw]
    simp only [readAll, List.length_map, List.length_range, List.length_append, List.length_drop]
    omega
  · intro n h1 h2
    simp only [readAll, List.length_map, List.length_range] at h1
    by_cases hn : n < cursor.toNat
    · rw [List.getElem_append_left (by rw [hw]; simpa using hn)]
      simp [readAll, hw]
    · rw [List.getElem_append_right (by rw [hw]; simpa using hn)]
      simp only [readAll, hw, List.getElem_map, List.getElem_range, List.length_map,
        List.length_range, List.getElem_drop]
      rw [hrest _ (by omega)]
      congr 1
      omega

theorem sampling_kept (s : State) (i : LoopIn) :
    (sampling (maintenance s i).1 i).1.collectingData = s.collectingData ∧
    (sampling (maintenance s i).1 i).1.dataCollectionStart = s.dataCollectionStart := by
  unfold sampling
  rw [(sampleTemp_fields _ i).2.2.2.2.1, (samplePPG_fields _ i).2.2.2.2.1,
    (maintenance_fields s i).2.2.2.2.2.2.2.1, (sampleTemp_fields _ i).2.2.2.1,
    (samplePPG_fields _ i).2.2.2.1, (maintenance_fields s i).2.2.2.2.2.2.1]
  exact ⟨rfl, rfl⟩

theorem timedOut_congr (s s0 : State) (i : LoopIn)
    (h : s.dataCollectionStart = s0.dataCollectionStart) : timedOut s i = timedOut s0 i := by
  unfold timedOut
  rw [h]

theorem sampling_filled (s0 s : State) (i : LoopIn) (wp wt : List (Int × Nat))
    (hc : s.collectingData = true)
    (hp : Filled 1000 s0.ppgBuffer s.ppgBuffer s.ppgIndex wp)
    (ht : Filled 40 s0.tempBuffer s.tempBuffer s.tempIndex wt) :
    Filled 1000 s0.ppgBuffer (sampling (maintenance s i).1 i).1.ppgBuffer
      (sampling (maintenance s i).1 i).1.ppgIndex (wp ++ ppgWrites (loop s i).2) ∧
    Filled 40 s0.tempBuffer (sampling (maintenance s i).1 i).1.tempBuffer
      (sampling (maintenance s i).1 i).1.tempIndex (wt ++ tempWrites (loop s i).2) := by
  obtain ⟨h1, h2, -⟩ := sampling_stream_steps s i hc
  exact ⟨filled_step h1 hp, filled_step h2 ht⟩

theorem run_open (s0 : State) : ∀ (is : List LoopIn) (s : State) (wp wt : List (Int × Nat)),
    s.collectingData = true → s.dataCollectionStart = s0.dataCollectionStart →
    (∀ x ∈ is, timedOut s0 x = false) →
    Filled 1000 s0.ppgBuffer s.ppgBuffer s.ppgIndex wp →
    Filled 40 s0.tempBuffer s.tempBuffer s.tempIndex wt →
    (run s is).1.collectingData = true ∧
    (run s is).1.dataCollectionStart = s0.dataCollectionStart ∧
    (run s is).1.simulateSensors = s.simulateSensors ∧
    Filled 1000 s0.ppgBuffer (run s is).1.ppgBuffer (run s is).1.ppgIndex
      (wp ++ ppgWrites (run s is).2) ∧
    Filled 40 s0.tempBuffer (run s is).1.tempBuffer (run s is).1.tempIndex
      (wt ++ tempWrites (run s is).2) := by
  intro is
  induction is with
  | nil =>
    intro s wp wt hc hd _ hp ht
    simp only [run, ppgWrites, tempWrites, List.append_nil]
    exact ⟨hc, hd, trivial, hp, ht⟩
  | cons i is ih =>
    intro s wp wt hc hd hopen hp ht
    have hto : timedOut s i = false := by
      rw [timedOut_congr s s0 i hd]
      exact hopen i (List.mem_cons_self _ _)
    obtain ⟨f1, f2⟩ := sampling_filled s0 s i wp wt hc hp ht
    obtain ⟨k1, k2⟩ := sampling_kept s i
    have hl : (loop s i).1 = (sampling (maintenance s i).1 i).1 := by
      rw [loop_open s i hc hto]
    have := ih (loop s i).1 (wp ++ ppgWrites (loop s i).2) (wt ++ tempWrites (loop s i).2)
      (by rw [hl, k1, hc]) (by rw [hl, k2, hd])
      (fun x hx => hopen x (List.mem_cons_of_mem _ hx))
      (by rw [hl]; exact f1) (by rw [hl]; exact f2)
    simp only [run, ppgWrites_append, tempWrites_append, ← List.append_assoc]
    rw [loop_simulateSensors] at this
    exact this

theorem take4_map_range {α : Type} (f : Nat → α) (n : Nat) (h : 4 ≤ n) :
    ((List.range n).map f).take 4 = [f 0, f 1, f 2, f 3] := by
  apply List.ext_getElem
  · simp
    omega
  · intro k h1 h2
    simp only [List.length_cons, List.length_nil] at h2
    have hk : k = 0 ∨ k = 1 ∨ k = 2 ∨ k = 3 := by omega
    rcases hk with e | e | e | e <;> subst e <;> simp

set_option maxRecDepth 8000 in
/-- C8, as stated, fails: the second window of the example run is closed in live mode with
`ppgIndex = 1` and `tempIndex = 1`, yet the bp payload carries 1000 PPG values, the stress
payload 640 PPG values and 40 temperatures; and the second and third PPG value of the bp
payload, 70305 and 70999, are the samples stored at indices 1 and 2 during the first
window. -/
theorem published_partial_window_stale :
    secondWindow.simulateSensors = false ∧
    (sampling (maintenance secondWindow tickLate2).1 tickLate2).1.ppgIndex = 1 ∧
    (sampling (maintenance secondWindow tickLate2).1 tickLate2).1.tempIndex = 1 ∧
    (publishes (loop secondWindow tickLate2).2).map (fun p => (p.1, p.2.ppg.length)) =
      [(Topic.bp, 1000), (Topic.stress, 640)] ∧
    (publishes (loop secondWindow tickLate2).2).map
        (fun p => (p.1, p.2.temperature.map List.length)) =
      [(Topic.bp, none), (Topic.stress, some 40)] ∧
    (publishes (loop secondWindow tickLate2).2).map (fun p => (p.1, p.2.ppg.take 4)) =
      [(Topic.bp, [71111, 70305, 70999, 0]), (Topic.stress, [71111, 70305, 0, 0])] ∧
    ppgWrites (loop (loop (setup liveStart) tickPPG).1 tick100).2 = [(1, 70305)] ∧
    ppgWrites (loop (loop (loop (setup liveStart) tickPPG).1 tick100).1 tickLate).2 =
      [(2, 70999)] := by
  have hp : publishes (loop secondWindow tickLate2).2 =
      [(Topic.bp, bpPayload (sampling (maintenance secondWindow tickLate2).1 tickLate2).1
          tickLate2),
       (Topic.stress, stressPayload (sampling (maintenance secondWindow tickLate2).1
          tickLate2).1 tickLate2)] := by
    rw [loop_close_publishes secondWindow tickLate2 rfl (by decide), closeWindow_publishes]
    rfl
  have hs := stressPayload_ppg (sampling (maintenance secondWindow tickLate2).1 tickLate2).1
    tickLate2
  refine ⟨rfl, rfl, rfl, ?_, ?_, ?_, rfl, rfl⟩
  · rw [hp]
    simp only [List.map_cons, List.map_nil, hs]
    simp [bpPayload, readAll, PPG_BUFFER_SIZE]
  · rw [hp]
    simp [bpPayload, stressPayload, readAll, TEMP_BUFFER_SIZE]
  · rw [hp]
    simp only [List.map_cons, List.map_nil, hs]
    have ea : (bpPayload (sampling (maintenance secondWindow tickLate2).1 tickLate2).1
        tickLate2).ppg.take 4 = [71111, 70305, 70999, 0] :=
      (take4_map_range (fun k : Nat =>
        (sampling (maintenance secondWindow tickLate2).1 tickLate2).1.ppgBuffer (k : Int))
        1000 (by decide)).trans rfl
    have eb : ((List.range 640).map (fun k : Nat =>
        (sampling (maintenance secondWindow tickLate2).1 tickLate2).1.ppgBuffer
          ((k * 1000 / 640 : Nat) : Int))).take 4 = [71111, 70305, 0, 0] :=
      (take4_map_range _ 640 (by decide)).trans rfl
    rw [ea, eb]

theorem readAll_getD (a : Int → Nat) (n : Int) (j : Nat) (hj : (j : Int) < n) :
    (readAll a n).getD j 0 = a (j : Int) := by
  have hj2 : j < n.toNat := by omega
  simp [readAll, List.getD, hj2]

/-- C8, amended: take a window that starts in live mode in state `s0` (collecting, both
cursors 0), stays open during the calls `is` and is closed by the call `i`; let `c` be the
state at the timeout test of the closing call, `wp` / `wt` the PPG / temperature values
stored during the window, in order.  Then `publish` is called with a bp payload `A` and a
stress payload `B` such that: `wp` has `c.ppgIndex` entries and `wt` has `c.tempIndex`;
`A.ppg` always has 1000 entries, namely `wp` followed by what cells
`c.ppgIndex .. 999` of `ppgBuffer` held at the window start; `B.temperature` always has 40
entries, namely `wt` followed by what cells `c.tempIndex .. 39` of `tempBuffer` held at the
window start; and `B.ppg` has 640 entries, entry `k` being entry `floor(k * 1000 / 640)` of
`A.ppg`. -/
theorem published_window_content (s0 : State) (is : List LoopIn) (i : LoopIn)
    (hc : s0.collectingData = true) (hp : s0.ppgIndex = 0) (ht : s0.tempIndex = 0)
    (hl : s0.simulateSensors = false)
    (hopen : ∀ x ∈ is, usub x.nowMillis s0.dataCollectionStart < 10000)
    (hclose : 10000 ≤ usub i.nowMillis s0.dataCollectionStart) :
    ∃ (c : State) (wp wt : List Nat) (A B : Payload),
      c = (sampling (maintenance (run s0 is).1 i).1 i).1 ∧
      wp = (ppgWrites ((run s0 is).2 ++ (loop (run s0 is).1 i).2)).map Prod.snd ∧
      wt = (tempWrites ((run s0 is).2 ++ (loop (run s0 is).1 i).2)).map Prod.snd ∧
      publishes (loop (run s0 is).1 i).2 = [(Topic.bp, A), (Topic.stress, B)] ∧
      (wp.length : Int) = c.ppgIndex ∧ (wt.length : Int) = c.tempIndex ∧
      c.ppgIndex ≤ 1000 ∧ c.tempIndex ≤ 40 ∧
      A.ppg = wp ++ (readAll s0.ppgBuffer 1000).drop wp.length ∧ A.ppg.length = 1000 ∧
      B.temperature = some (wt ++ (readAll s0.tempBuffer 40).drop wt.length) ∧
      (wt ++ (readAll s0.tempBuffer 40).drop wt.length).length = 40 ∧
      B.ppg = (List.range 640).map (fun k : Nat => A.ppg.getD (k * 1000 / 640) 0) := by
  have hopen2 : ∀ x ∈ is, timedOut s0 x = false := by
    intro x hx
    cases hto : timedOut s0 x with
    | false => rfl
    | true => have := (timedOut_iff s0 x).1 hto; have := hopen x hx; omega
  have fp0 : Filled 1000 s0.ppgBuffer s0.ppgBuffer s0.ppgIndex [] := by
    rw [hp]; exact filled_start 1000 (by decide) _
  have ft0 : Filled 40 s0.tempBuffer s0.tempBuffer s0.tempIndex [] := by
    rw [ht]; exact filled_start 40 (by decide) _
  obtain ⟨r1, r2, r3, r4, r5⟩ := run_open s0 is s0 [] [] hc rfl hopen2 fp0 ft0
  obtain ⟨f1, f2⟩ := sampling_filled s0 (run s0 is).1 i _ _ r1 r4 r5
  have hto : timedOut (run s0 is).1 i = true := by
    rw [timedOut_congr _ s0 i r2]
    exact (timedOut_iff s0 i).2 hclose
  have hsim : (sampling (maintenance (run s0 is).1 i).1 i).1.simulateSensors = false := by
    rw [sampling_simulateSensors, r3, hl]
  have hpub := loop_close_publishes (run s0 is).1 i r1 hto
  rw [closeWindow_publishes, hsim] at hpub
  simp only [Bool.false_eq_true, if_false] at hpub
  simp only [List.nil_append, ← ppgWrites_append, ← tempWrites_append] at f1 f2
  obtain ⟨l1, e1⟩ := filled_readAll f1
  obtain ⟨l2, e2⟩ := filled_readAll f2
  obtain ⟨p0, p1, -, -⟩ := f1
  obtain ⟨t0, t1, -, -⟩ := f2
  have hlen1 : ((ppgWrites ((run s0 is).2 ++ (loop (run s0 is).1 i).2)).map Prod.snd).length
      = (sampling (maintenance (run s0 is).1 i).1 i).1.ppgIndex.toNat := by
    rw [List.length_map, l1]
  have hlen2 : ((tempWrites ((run s0 is).2 ++ (loop (run s0 is).1 i).2)).map Prod.snd).length
      = (sampling (maintenance (run s0 is).1 i).1 i).1.tempIndex.toNat := by
    rw [List.length_map, l2]
  have hA : (bpPayload (sampling (maintenance (run s0 is).1 i).1 i).1 i).ppg
      = readAll (sampling (maintenance (run s0 is).1 i).1 i).1.ppgBuffer 1000 := by
    simp only [bpPayload, PPG_BUFFER_SIZE]
  refine ⟨_, _, _, _, _, rfl, rfl, rfl, hpub, ?_, ?_, p1, t1, ?_, ?_, ?_, ?_, ?_⟩
  · rw [hlen1]; omega
  · rw [hlen2]; omega
  · rw [hlen1, hA]; exact e1
  · rw [hA]; simp [readAll]
  · rw [hlen2]
    show some (readAll _ 40) = _
    rw [e2]
  · rw [hlen2, ← e2]; simp [readAll]
  · rw [stressPayload_ppg, hA]
    apply List.map_congr_left
    intro k hk
    have hk2 : k < 640 := List.mem_range.1 hk
    rw [readAll_getD _ _ _ (by omega)]

/-- Witness of C8 (amended): the first window of the example run, opened by `setup
liveStart`, kept open by `tickPPG` and `tick100`, closed by `tickLate`. -/
theorem published_window_content_witness :
    ((setup liveStart).collectingData = true ∧ (setup liveStart).ppgIndex = 0 ∧
      (setup liveStart).tempIndex = 0 ∧ (setup liveStart).simulateSensors = false ∧
      (∀ x ∈ [tickPPG, tick100], usub x.nowMillis (setup liveStart).dataCollectionStart < 10000) ∧
      10000 ≤ usub tickLate.nowMillis (setup liveStart).dataCollectionStart) ∧
    ∃ (c : State) (wp wt : List Nat) (A B : Payload),
      c = (sampling (maintenance (run (setup liveStart) [tickPPG, tick100]).1 tickLate).1
            tickLate).1 ∧
      wp = (ppgWrites ((run (setup liveStart) [tickPPG, tick100]).2 ++
            (loop (run (setup liveStart) [tickPPG, tick100]).1 tickLate).2)).map Prod.snd ∧
      wt = (tempWrites ((run (setup liveStart) [tickPPG, tick100]).2 ++
            (loop (run (setup liveStart) [tickPPG, tick100]).1 tickLate).2)).map Prod.snd ∧
      publishes (loop (run (setup liveStart) [tickPPG, tick100]).1 tickLate).2 =
        [(Topic.bp, A), (Topic.stress, B)] ∧
      (wp.length : Int) = c.ppgIndex ∧ (wt.length : Int) = c.tempIndex ∧
      c.ppgIndex ≤ 1000 ∧ c.tempIndex ≤ 40 ∧
      A.ppg = wp ++ (readAll (setup liveStart).ppgBuffer 1000).drop wp.length ∧
      A.ppg.length = 1000 ∧
      B.temperature = some (wt ++ (readAll (setup liveStart).tempBuffer 40).drop wt.length) ∧
      (wt ++ (readAll (setup liveStart).tempBuffer 40).drop wt.length).length = 40 ∧
      B.ppg = (List.range 640).map (fun k : Nat => A.ppg.getD (k * 1000 / 640) 0) :=
  ⟨⟨rfl, rfl, rfl, rfl, by decide, by decide⟩,
   published_window_content (setup liveStart) [tickPPG, tick100] tickLate rfl rfl rfl rfl
     (by decide) (by decide)⟩

end Firmware
